import Mathlib

/-!
Foospulse: verification of the live-match session engine and the
rating / stats recomputation pipeline.

Shallow embedding of the core of the `foospulse` repository:

* `apps/api/app/services/live_match.py` — session engine and finalizer,
* `apps/api/app/routes/live_matches.py` — route-level guards around them,
* `apps/worker/tasks/ratings.py` — per-match Elo rating job,
* `apps/worker/tasks/stats.py` — content-hash cached stats recomputation.

Modelling conventions:

* Database rows become Lean structures; a worker database is a record of
  lists of rows.  SQLAlchemy mutation plus `flush`/`commit` becomes pure
  state passing (each operation returns the updated state); on an exception
  nothing is committed, so the state is returned unchanged.
* Timestamps (`datetime.utcnow()`) are abstracted as `Nat` values passed
  in by the caller (`now`); `isoformat()` is modelled by `toString`, an
  injective rendering of the abstract timestamp.
* UUIDs are abstracted as `String` identifiers; freshly generated ids are
  passed in by the caller.  Event rows of a live session get consecutive
  `Nat` ids (standing for the uniqueness of generated UUIDs).
* Python float arithmetic in the Elo computation is idealised as real
  (`ℝ`) arithmetic; exact fractions (team averages, the margin function)
  are modelled in `ℚ`.  Python's `round` (banker's rounding) is `roundPy`.
* Authorization (`verify_scorer_access`) is an opaque external predicate;
  routes are modelled after the authorization check has passed.
* `hashlib.sha256(...).hexdigest()` is modelled by a full executable
  SHA-256 implementation over the byte values of the input string
  (the hash inputs produced by the code are ASCII).
-/

namespace Foospulse

/-! ## Enumerations (string-valued enums from the source models) -/

/-- `LiveMatchStatus.WAITING.value` in `app/models/live_match.py`. -/
def LiveMatchStatus.WAITING : String := "waiting"

/-- `LiveMatchStatus.ACTIVE.value`. -/
def LiveMatchStatus.ACTIVE : String := "active"

/-- `LiveMatchStatus.PAUSED.value`. -/
def LiveMatchStatus.PAUSED : String := "paused"

/-- `LiveMatchStatus.COMPLETED.value`. -/
def LiveMatchStatus.COMPLETED : String := "completed"

/-- `LiveMatchStatus.ABANDONED.value`. -/
def LiveMatchStatus.ABANDONED : String := "abandoned"

/-- `LiveEventType.GOAL.value`. -/
def LiveEventType.GOAL : String := "goal"

/-- `LiveEventType.GAMELLIZED.value` (minor penalty, −1 goal for the team). -/
def LiveEventType.GAMELLIZED : String := "gamellized"

/-- `LiveEventType.LOBBED.value` (major penalty, −3 goals for the team). -/
def LiveEventType.LOBBED : String := "lobbed"

/-- `LiveEventType.TIMEOUT.value`. -/
def LiveEventType.TIMEOUT : String := "timeout"

/-- `LiveEventType.CUSTOM.value`. -/
def LiveEventType.CUSTOM : String := "custom"

/-- `MatchStatus.VALID.value` in `app/models/match.py`. -/
def MatchStatus.VALID : String := "valid"

/-- `MatchStatus.VOID.value`. -/
def MatchStatus.VOID : String := "void"

/-- `EventType.GAMELLE.value` (permanent-match event type). -/
def EventType.GAMELLE : String := "gamelle"

/-- `EventType.LOB.value` (permanent-match event type, counts as 3 gamelles). -/
def EventType.LOB : String := "lob"

/-! ## Live-session data model (`app/models/live_match.py`) -/

/-- Row of `live_match_session_players`. -/
structure LiveMatchSessionPlayer where
  player_id : String
  team : String
  position : String
deriving DecidableEq, Repr

/-- Row of `live_match_session_events`.  `undone_at` is the soft-delete
timestamp; metadata columns irrelevant to the verified operations
(`metadata_json`, `recorded_by_user_id`) are omitted. -/
structure LiveMatchSessionEvent where
  id : Nat
  event_type : String
  team : Option String
  by_player_id : Option String
  against_player_id : Option String
  custom_type : Option String
  elapsed_seconds : Option Nat
  recorded_at : Nat
  undone_at : Option Nat
deriving DecidableEq, Repr

/-- Row of `live_match_sessions`, together with its owned `players` and
`events` collections. -/
structure LiveMatchSession where
  league_id : String
  season_id : String
  share_token : String
  scorer_secret : Option String
  mode : String
  status : String
  team_a_score : Int
  team_b_score : Int
  started_at : Option Nat
  ended_at : Option Nat
  created_at : Nat
  updated_at : Nat
  finalized_match_id : Option String
  players : List LiveMatchSessionPlayer
  events : List LiveMatchSessionEvent
deriving DecidableEq, Repr

/-! ## Permanent-match data model (`app/models/match.py`, mirrored in
`apps/worker/models.py`) -/

/-- Row of `matches`. -/
structure MatchRow where
  id : String
  league_id : String
  season_id : String
  mode : String
  team_a_score : Int
  team_b_score : Int
  played_at : Nat
  created_at : Nat
  status : String
deriving DecidableEq, Repr

/-- Row of `match_players`. -/
structure MatchPlayerRow where
  match_id : String
  player_id : String
  team : String
  position : String
  is_captain : Bool
deriving DecidableEq, Repr

/-- Row of `match_events`. -/
structure MatchEventRow where
  match_id : String
  event_type : String
  against_player_id : String
  by_player_id : Option String
  count : Int
deriving DecidableEq, Repr

/-! ## Request schemas (`app/schemas/live_match.py`) -/

/-- `LiveMatchPlayerInput`. -/
structure LiveMatchPlayerInput where
  player_id : String
  team : String
  position : String
deriving DecidableEq, Repr

/-- `LiveMatchCreate`. -/
structure LiveMatchCreate where
  season_id : String
  mode : String
  players : List LiveMatchPlayerInput
  generate_scorer_secret : Bool
deriving DecidableEq, Repr

/-- Pydantic field validation of `LiveMatchCreate`:
`mode` must match `^(1v1|2v2)$`, each player's `team` must match `^[AB]$`
and `position` must match `^(attack|defense)$`. -/
def LiveMatchCreate.schemaValid (d : LiveMatchCreate) : Bool :=
  (d.mode == "1v1" || d.mode == "2v2") &&
    d.players.all (fun p =>
      (p.team == "A" || p.team == "B") &&
        (p.position == "attack" || p.position == "defense"))

/-- `LiveMatchEventInput`. -/
structure LiveMatchEventInput where
  event_type : String
  team : Option String
  by_player_id : Option String
  against_player_id : Option String
  custom_type : Option String
  elapsed_seconds : Option Nat
deriving DecidableEq, Repr

/-- Pydantic field validation of `LiveMatchEventInput`:
`event_type` must match `^(goal|gamellized|lobbed|timeout|custom)$` and
`team`, when present, must match `^[AB]$`. -/
def LiveMatchEventInput.schemaValid (d : LiveMatchEventInput) : Bool :=
  (d.event_type == "goal" || d.event_type == "gamellized" ||
      d.event_type == "lobbed" || d.event_type == "timeout" ||
      d.event_type == "custom") &&
    (match d.team with
     | none => true
     | some t => t == "A" || t == "B")

/-- `LiveMatchScoreUpdate`: both scores are pydantic-constrained to
`ge=-20, le=20`. -/
structure LiveMatchScoreUpdate where
  team_a_score : Int
  team_b_score : Int
deriving DecidableEq, Repr

/-- Pydantic field validation of `LiveMatchScoreUpdate`. -/
def LiveMatchScoreUpdate.schemaValid (d : LiveMatchScoreUpdate) : Bool :=
  (-20 ≤ d.team_a_score && d.team_a_score ≤ 20) &&
    (-20 ≤ d.team_b_score && d.team_b_score ≤ 20)

/-! ## Session service (`app/services/live_match.py`) -/

/-- `create_live_match_session`: builds the session row (status `waiting`,
scores 0) and its player rows.  The generated share token / scorer secret
and the creating user are supplied by the caller. -/
def create_live_match_session (league_id season_id : String)
    (data : LiveMatchCreate) (share_token scorer_secret : String)
    (now : Nat) : LiveMatchSession :=
  { league_id := league_id
    season_id := season_id
    share_token := share_token
    scorer_secret := if data.generate_scorer_secret then some scorer_secret else none
    mode := data.mode
    status := LiveMatchStatus.WAITING
    team_a_score := 0
    team_b_score := 0
    started_at := none
    ended_at := none
    created_at := now
    updated_at := now
    finalized_match_id := none
    players := data.players.map (fun p =>
      { player_id := p.player_id, team := p.team, position := p.position })
    events := [] }

/-- `update_session_status`: sets the status, stamps `started_at` on the
first transition to `active` and `ended_at` on entering a terminal state. -/
def update_session_status (session : LiveMatchSession) (new_status : String)
    (now : Nat) : LiveMatchSession :=
  let session := { session with status := new_status, updated_at := now }
  if new_status = LiveMatchStatus.ACTIVE ∧ session.started_at = none then
    { session with started_at := some now }
  else if new_status = LiveMatchStatus.COMPLETED ∨
      new_status = LiveMatchStatus.ABANDONED then
    { session with ended_at := some now }
  else
    session

/-- `update_session_score`: manual score override; does not touch events. -/
def update_session_score (session : LiveMatchSession)
    (team_a_score team_b_score : Int) (now : Nat) : LiveMatchSession :=
  { session with
      team_a_score := team_a_score
      team_b_score := team_b_score
      updated_at := now }

/-- `record_event`: appends an event row and, when the event carries a
team, applies the score delta (goal +1, gamellized −1, lobbed −3; the
score may go negative).  The new event's id is the next consecutive
number, standing for a fresh UUID. -/
def record_event (session : LiveMatchSession) (data : LiveMatchEventInput)
    (now : Nat) : LiveMatchSession × LiveMatchSessionEvent :=
  let event : LiveMatchSessionEvent :=
    { id := session.events.length
      event_type := data.event_type
      team := data.team
      by_player_id := data.by_player_id
      against_player_id := data.against_player_id
      custom_type := data.custom_type
      elapsed_seconds := data.elapsed_seconds
      recorded_at := now
      undone_at := none }
  let session :=
    match data.team with
    | none => session
    | some t =>
      if data.event_type = LiveEventType.GOAL then
        if t = "A" then
          { session with team_a_score := session.team_a_score + 1, updated_at := now }
        else
          { session with team_b_score := session.team_b_score + 1, updated_at := now }
      else if data.event_type = LiveEventType.GAMELLIZED then
        if t = "A" then
          { session with team_a_score := session.team_a_score - 1, updated_at := now }
        else
          { session with team_b_score := session.team_b_score - 1, updated_at := now }
      else if data.event_type = LiveEventType.LOBBED then
        if t = "A" then
          { session with team_a_score := session.team_a_score - 3, updated_at := now }
        else
          { session with team_b_score := session.team_b_score - 3, updated_at := now }
      else
        session
  ({ session with events := session.events ++ [event] }, event)

/-- `undo_event`: soft-deletes the event (stamps `undone_at`) and reverses
its score effect (goal −1 back, gamellized +1 back, lobbed +3 back). -/
def undo_event (session : LiveMatchSession) (event : LiveMatchSessionEvent)
    (now : Nat) : LiveMatchSession × LiveMatchSessionEvent :=
  let undone : LiveMatchSessionEvent := { event with undone_at := some now }
  let session :=
    { session with
        events := session.events.map (fun e => if e.id = event.id then undone else e) }
  let session :=
    match event.team with
    | none => session
    | some t =>
      if event.event_type = LiveEventType.GOAL then
        if t = "A" then
          { session with team_a_score := session.team_a_score - 1, updated_at := now }
        else
          { session with team_b_score := session.team_b_score - 1, updated_at := now }
      else if event.event_type = LiveEventType.GAMELLIZED then
        if t = "A" then
          { session with team_a_score := session.team_a_score + 1, updated_at := now }
        else
          { session with team_b_score := session.team_b_score + 1, updated_at := now }
      else if event.event_type = LiveEventType.LOBBED then
        if t = "A" then
          { session with team_a_score := session.team_a_score + 3, updated_at := now }
        else
          { session with team_b_score := session.team_b_score + 3, updated_at := now }
      else
        session
  (session, undone)

/-- Everything `finalize_session` creates, together with the updated
session. -/
structure FinalizeResult where
  match_row : MatchRow
  match_players : List MatchPlayerRow
  match_events : List MatchEventRow
  session : LiveMatchSession
deriving DecidableEq, Repr

/-- `finalize_session`: creates the permanent match from the session's
final scores and participants, copies the non-undone `gamellized` events
that have an `against_player_id` as `gamelle` match events (count 1), and
marks the session completed with `finalized_match_id` set. -/
def finalize_session (session : LiveMatchSession) (new_match_id : String)
    (now : Nat) : FinalizeResult :=
  let m : MatchRow :=
    { id := new_match_id
      league_id := session.league_id
      season_id := session.season_id
      mode := session.mode
      team_a_score := session.team_a_score
      team_b_score := session.team_b_score
      played_at := session.started_at.getD session.created_at
      created_at := now
      status := MatchStatus.VALID }
  let mps := session.players.map (fun lp =>
    { match_id := new_match_id
      player_id := lp.player_id
      team := lp.team
      position := lp.position
      is_captain := false : MatchPlayerRow })
  let mes := session.events.filterMap (fun le =>
    match le.undone_at, le.against_player_id with
    | none, some ap =>
      if le.event_type = LiveEventType.GAMELLIZED then
        some { match_id := new_match_id
               event_type := EventType.GAMELLE
               against_player_id := ap
               by_player_id := le.by_player_id
               count := 1 : MatchEventRow }
      else
        none
    | _, _ => none)
  let session :=
    { session with
        finalized_match_id := some new_match_id
        status := LiveMatchStatus.COMPLETED
        ended_at := some now
        updated_at := now }
  { match_row := m, match_players := mps, match_events := mes, session := session }

/-- `validate_live_match_players`: returns the error dictionary (modelled
as an association list in insertion order); empty means valid.  Note the
source derives the expected counts as "2 if 1v1 else 4" and "1 if 1v1
else 2", so every non-`1v1` mode is checked as a 2-per-side mode. -/
def validate_live_match_players (mode : String)
    (players : List LiveMatchPlayerInput) : List (String × String) :=
  let expected_count : Nat := if mode = "1v1" then 2 else 4
  if players.length ≠ expected_count then
    [("players", mode ++ " requires exactly " ++ toString expected_count ++ " players")]
  else
    let team_a := players.filter (fun p => p.team = "A")
    let team_b := players.filter (fun p => p.team = "B")
    let expected_per_team : Nat := if mode = "1v1" then 1 else 2
    if team_a.length ≠ expected_per_team ∨ team_b.length ≠ expected_per_team then
      [("teams", "Each team must have exactly " ++ toString expected_per_team ++ " player(s)")]
    else
      let position_errors :=
        if mode = "2v2" then
          (if (team_a.map (fun p => p.position)).toFinset ≠
              ({"attack", "defense"} : Finset String) then
            [("team_a_positions", "Blue team must have one attacker and one defender")]
          else []) ++
          (if (team_b.map (fun p => p.position)).toFinset ≠
              ({"attack", "defense"} : Finset String) then
            [("team_b_positions", "Red team must have one attacker and one defender")]
          else [])
        else []
      let player_ids := players.map (fun p => p.player_id)
      position_errors ++
        (if ¬ player_ids.Nodup then
          [("duplicate_players", "Each player can only be in the match once")]
        else [])

/-! ## Route layer (`app/routes/live_matches.py`)

Routes are modelled after the share-token lookup and the
`verify_scorer_access` authorization check (an opaque external predicate)
have succeeded.  `ApiOutcome.err code msg` stands for an
`HTTPException` whose payload is `api_error(code, msg)`; the pydantic
request-body validation that FastAPI performs before entering the route
body is modelled as an initial `UNPROCESSABLE_ENTITY` rejection. -/

/-- Result of a route call: the returned data or the raised error. -/
inductive ApiOutcome (α : Type) where
  | ok (data : α)
  | err (code : String) (msg : String)
deriving DecidableEq, Repr

/-- Payload returned by the event-recording and undo routes. -/
structure EventRouteData where
  event_id : Nat
  team_a_score : Int
  team_b_score : Int
deriving DecidableEq, Repr

/-- `record_live_match_event` (POST `/live/{share_token}/events`):
requires the session to be `waiting` or `active`, auto-starts a
`waiting` session, records the event and returns the updated running
score of both sides. -/
def record_live_match_event (session : LiveMatchSession)
    (data : LiveMatchEventInput) (now : Nat) :
    ApiOutcome EventRouteData × LiveMatchSession :=
  if ¬ data.schemaValid then
    (.err "UNPROCESSABLE_ENTITY" "Invalid request body", session)
  else if ¬ (session.status = LiveMatchStatus.WAITING ∨
      session.status = LiveMatchStatus.ACTIVE) then
    (.err "VALIDATION_ERROR" "Match is not active", session)
  else
    let session :=
      if session.status = LiveMatchStatus.WAITING then
        update_session_status session LiveMatchStatus.ACTIVE now
      else
        session
    let r := record_event session data now
    (.ok { event_id := r.2.id
           team_a_score := r.1.team_a_score
           team_b_score := r.1.team_b_score },
     r.1)

/-- `undo_live_match_event` (POST `/live/{share_token}/events/{id}/undo`):
the event must exist in the session and not be undone already.  Note the
route performs no session-status check. -/
def undo_live_match_event (session : LiveMatchSession) (event_id : Nat)
    (now : Nat) : ApiOutcome EventRouteData × LiveMatchSession :=
  match session.events.find? (fun e => e.id = event_id) with
  | none => (.err "NOT_FOUND" "Event not found", session)
  | some event =>
    if event.undone_at ≠ none then
      (.err "VALIDATION_ERROR" "Event already undone", session)
    else
      let r := undo_event session event now
      (.ok { event_id := event.id
             team_a_score := r.1.team_a_score
             team_b_score := r.1.team_b_score },
       r.1)

/-- `update_live_match_score` (POST `/live/{share_token}/score`): manual
score correction.  Note the route performs no session-status check. -/
def update_live_match_score (session : LiveMatchSession)
    (data : LiveMatchScoreUpdate) (now : Nat) :
    ApiOutcome (Int × Int) × LiveMatchSession :=
  if ¬ data.schemaValid then
    (.err "UNPROCESSABLE_ENTITY" "Invalid request body", session)
  else
    let s := update_session_score session data.team_a_score data.team_b_score now
    (.ok (s.team_a_score, s.team_b_score), s)

/-- The status transition table of `update_live_match_status`. -/
def valid_transitions (current : String) : List String :=
  if current = LiveMatchStatus.WAITING then
    [LiveMatchStatus.ACTIVE, LiveMatchStatus.ABANDONED]
  else if current = LiveMatchStatus.ACTIVE then
    [LiveMatchStatus.PAUSED, LiveMatchStatus.COMPLETED, LiveMatchStatus.ABANDONED]
  else if current = LiveMatchStatus.PAUSED then
    [LiveMatchStatus.ACTIVE, LiveMatchStatus.COMPLETED, LiveMatchStatus.ABANDONED]
  else
    []

/-- `update_live_match_status` (POST `/live/{share_token}/status`):
validates the requested transition against the transition table
(terminal states have no outgoing transitions). -/
def update_live_match_status (session : LiveMatchSession)
    (new_status : String) (now : Nat) :
    ApiOutcome String × LiveMatchSession :=
  if ¬ (new_status = LiveMatchStatus.ACTIVE ∨ new_status = LiveMatchStatus.PAUSED ∨
      new_status = LiveMatchStatus.COMPLETED ∨ new_status = LiveMatchStatus.ABANDONED) then
    (.err "UNPROCESSABLE_ENTITY" "Invalid request body", session)
  else if ¬ (new_status ∈ valid_transitions session.status) then
    (.err "VALIDATION_ERROR"
      ("Invalid status transition from " ++ session.status ++ " to " ++ new_status),
     session)
  else
    let s := update_session_status session new_status now
    (.ok s.status, s)

/-- `finalize_live_match` (POST `/live/{share_token}/finalize`): requires
`confirm`, rejects an already-finalized session with a `CONFLICT` error
and an abandoned session with a validation error; otherwise runs
`finalize_session`.  The third component is the permanent match data
created by the call (`none` when the call is rejected). -/
def finalize_live_match (session : LiveMatchSession) (confirm : Bool)
    (new_match_id : String) (now : Nat) :
    ApiOutcome String × LiveMatchSession × Option FinalizeResult :=
  if ¬ confirm then
    (.err "VALIDATION_ERROR" "Must confirm finalization", session, none)
  else if session.status = LiveMatchStatus.COMPLETED ∧
      session.finalized_match_id ≠ none then
    (.err "CONFLICT" "Match already finalized", session, none)
  else if session.status = LiveMatchStatus.ABANDONED then
    (.err "VALIDATION_ERROR" "Cannot finalize abandoned match", session, none)
  else
    let r := finalize_session session new_match_id now
    (.ok new_match_id, r.session, some r)

/-- `abandon_live_match` (DELETE `/live/{share_token}`): rejected once the
session has ended. -/
def abandon_live_match (session : LiveMatchSession) (now : Nat) :
    ApiOutcome String × LiveMatchSession :=
  if session.status = LiveMatchStatus.COMPLETED ∨
      session.status = LiveMatchStatus.ABANDONED then
    (.err "VALIDATION_ERROR" "Match already ended", session)
  else
    (.ok LiveMatchStatus.ABANDONED,
     update_session_status session LiveMatchStatus.ABANDONED now)

/-- `create_live_match` (POST `/{league_slug}/live-matches`), after the
league-membership and season checks: pydantic schema validation, then
`validate_live_match_players`, then the players-exist-in-league check;
only then is the session created.  The second component is the list of
sessions persisted by the call (empty on rejection). -/
def create_live_match (league_id : String) (data : LiveMatchCreate)
    (league_player_ids : List String) (share_token scorer_secret : String)
    (now : Nat) : ApiOutcome LiveMatchSession × List LiveMatchSession :=
  if ¬ data.schemaValid then
    (.err "UNPROCESSABLE_ENTITY" "Invalid request body", [])
  else if validate_live_match_players data.mode data.players ≠ [] then
    (.err "VALIDATION_ERROR" "Invalid players", [])
  else if ¬ data.players.all (fun p => league_player_ids.contains p.player_id) then
    (.err "VALIDATION_ERROR" "One or more players not found in league", [])
  else
    let s := create_live_match_session league_id data.season_id data share_token
      scorer_secret now
    (.ok s, [s])

/-! ## Score deltas and operation sequences (for the event-sourcing
invariants) -/

/-- The score delta a recorded event of the given type applies to the side
it carries: goal +1, gamellized −1, lobbed −3, anything else 0. -/
def eventScoreDelta (event_type : String) : Int :=
  if event_type = LiveEventType.GOAL then 1
  else if event_type = LiveEventType.GAMELLIZED then -1
  else if event_type = LiveEventType.LOBBED then -3
  else 0

/-- Score delta the event applied to side A when it was recorded. -/
def eventDeltaA (e : LiveMatchSessionEvent) : Int :=
  match e.team with
  | none => 0
  | some t => if t = "A" then eventScoreDelta e.event_type else 0

/-- Score delta the event applied to side B when it was recorded. -/
def eventDeltaB (e : LiveMatchSessionEvent) : Int :=
  match e.team with
  | none => 0
  | some t => if t = "A" then 0 else eventScoreDelta e.event_type

/-- Sum of the side-A deltas of the not-undone events. -/
def liveDeltaSumA (events : List LiveMatchSessionEvent) : Int :=
  ((events.filter (fun e => e.undone_at = none)).map eventDeltaA).sum

/-- Sum of the side-B deltas of the not-undone events. -/
def liveDeltaSumB (events : List LiveMatchSessionEvent) : Int :=
  ((events.filter (fun e => e.undone_at = none)).map eventDeltaB).sum

/-- A client operation against a live session: record an event or undo an
event by id, each at some wall-clock time. -/
inductive SessionOp where
  | record (data : LiveMatchEventInput) (now : Nat)
  | undo (event_id : Nat) (now : Nat)
deriving DecidableEq, Repr

/-- Apply one route-level operation; a rejected operation leaves the
session unchanged. -/
def applySessionOp (session : LiveMatchSession) : SessionOp → LiveMatchSession
  | .record data now => (record_live_match_event session data now).2
  | .undo event_id now => (undo_live_match_event session event_id now).2

/-- Run a sequence of record/undo operations. -/
def runSessionOps (session : LiveMatchSession) (ops : List SessionOp) :
    LiveMatchSession :=
  ops.foldl applySessionOp session

/-! ## SHA-256 (model of `hashlib.sha256(...).hexdigest()`)

Executable SHA-256 over the byte values of the input string; the hash
inputs built by `compute_source_hash` are ASCII, so the byte sequence is
the list of character code points. -/

namespace SHA256

/-- Truncate to a 32-bit word. -/
def w32 (n : Nat) : Nat := n % 4294967296

/-- 32-bit right rotation. -/
def rotr (x n : Nat) : Nat := w32 ((x >>> n) ||| (x <<< (32 - n)))

/-- Bitwise complement within 32 bits. -/
def compl32 (x : Nat) : Nat := x ^^^ 4294967295

/-- The `Ch` function. -/
def ch (x y z : Nat) : Nat := (x &&& y) ^^^ (compl32 x &&& z)

/-- The `Maj` function. -/
def maj (x y z : Nat) : Nat := ((x &&& y) ^^^ (x &&& z)) ^^^ (y &&& z)

/-- `Σ₀`. -/
def bigSigma0 (x : Nat) : Nat := (rotr x 2 ^^^ rotr x 13) ^^^ rotr x 22

/-- `Σ₁`. -/
def bigSigma1 (x : Nat) : Nat := (rotr x 6 ^^^ rotr x 11) ^^^ rotr x 25

/-- `σ₀`. -/
def smallSigma0 (x : Nat) : Nat := (rotr x 7 ^^^ rotr x 18) ^^^ (x >>> 3)

/-- `σ₁`. -/
def smallSigma1 (x : Nat) : Nat := (rotr x 17 ^^^ rotr x 19) ^^^ (x >>> 10)

/-- Round constants (decimal rendering of the standard table). -/
def K : List Nat :=
  [1116352408, 1899447441, 3049323471, 3921009573, 961987163, 1508970993,
   2453635748, 2870763221, 3624381080, 310598401, 607225278, 1426881987,
   1925078388, 2162078206, 2614888103, 3248222580, 3835390401, 4022224774,
   264347078, 604807628, 770255983, 1249150122, 1555081692, 1996064986,
   2554220882, 2821834349, 2952996808, 3210313671, 3336571891, 3584528711,
   113926993, 338241895, 666307205, 773529912, 1294757372, 1396182291,
   1695183700, 1986661051, 2177026350, 2456956037, 2730485921, 2820302411,
   3259730800, 3345764771, 3516065817, 3600352804, 4094571909, 275423344,
   430227734, 506948616, 659060556, 883997877, 958139571, 1322822218,
   1537002063, 1747873779, 1955562222, 2024104815, 2227730452, 2361852424,
   2428436474, 2756734187, 3204031479, 3329325298]

/-- Big-endian byte rendering of a number on `n` bytes. -/
def bytesBE : Nat → Nat → List Nat
  | 0, _ => []
  | n + 1, v => bytesBE n (v / 256) ++ [v % 256]

/-- SHA-256 message padding. -/
def pad (msg : List Nat) : List Nat :=
  let zeros := (64 - (msg.length + 9) % 64) % 64
  msg ++ [128] ++ List.replicate zeros 0 ++ bytesBE 8 (msg.length * 8)

/-- Group bytes into big-endian 32-bit words. -/
def toWords : List Nat → List Nat
  | b0 :: b1 :: b2 :: b3 :: rest =>
    (((b0 * 256 + b1) * 256 + b2) * 256 + b3) :: toWords rest
  | _ => []

/-- Message-schedule extension: append words until 64 are present. -/
def extendAux : Nat → List Nat → List Nat
  | 0, ws => ws
  | n + 1, ws =>
    let i := ws.length
    let w := w32 (smallSigma1 (ws.getD (i - 2) 0) + ws.getD (i - 7) 0 +
      smallSigma0 (ws.getD (i - 15) 0) + ws.getD (i - 16) 0)
    extendAux n (ws ++ [w])

/-- Working state of the compression function. -/
structure Hash8 where
  a : Nat
  b : Nat
  c : Nat
  d : Nat
  e : Nat
  f : Nat
  g : Nat
  hh : Nat
deriving DecidableEq, Repr

/-- Initial hash value (decimal rendering). -/
def H0 : Hash8 :=
  { a := 1779033703, b := 3144134277, c := 1013904242, d := 2773480762,
    e := 1359893119, f := 2600822924, g := 528734635, hh := 1541459225 }

/-- One compression round. -/
def compressStep (st : Hash8) (kw : Nat × Nat) : Hash8 :=
  let t1 := w32 (st.hh + bigSigma1 st.e + ch st.e st.f st.g + kw.1 + kw.2)
  let t2 := w32 (bigSigma0 st.a + maj st.a st.b st.c)
  { a := w32 (t1 + t2), b := st.a, c := st.b, d := st.c,
    e := w32 (st.d + t1), f := st.e, g := st.f, hh := st.g }

/-- Compress one 64-byte block into the running hash. -/
def compressBlock (hs : Hash8) (block : List Nat) : Hash8 :=
  let ws := extendAux 48 (toWords block)
  let st := (K.zip ws).foldl compressStep hs
  { a := w32 (hs.a + st.a), b := w32 (hs.b + st.b), c := w32 (hs.c + st.c),
    d := w32 (hs.d + st.d), e := w32 (hs.e + st.e), f := w32 (hs.f + st.f),
    g := w32 (hs.g + st.g), hh := w32 (hs.hh + st.hh) }

/-- Process the padded message 64 bytes at a time. -/
def processBlocks (hs : Hash8) : List Nat → Hash8
  | [] => hs
  | b :: rest =>
    processBlocks (compressBlock hs ((b :: rest).take 64)) ((b :: rest).drop 64)
termination_by bs => bs.length
decreasing_by simp [List.length_drop]; omega

/-- One lowercase hexadecimal digit. -/
def hexDigit (n : Nat) : Char :=
  if n < 10 then Char.ofNat (48 + n) else Char.ofNat (87 + n)

/-- Eight-hex-digit rendering of a 32-bit word. -/
def hexWord (n : Nat) : List Char :=
  (List.range 8).map (fun i => hexDigit ((n >>> (28 - 4 * i)) % 16))

/-- `hashlib.sha256(s.encode()).hexdigest()` for an ASCII string `s`. -/
def sha256hex (s : String) : String :=
  let hs := processBlocks H0 (pad (s.data.map Char.toNat))
  String.mk (hexWord hs.a ++ hexWord hs.b ++ hexWord hs.c ++ hexWord hs.d ++
    hexWord hs.e ++ hexWord hs.f ++ hexWord hs.g ++ hexWord hs.hh)

end SHA256

/-! ## Worker database state (`apps/worker/models.py`) -/

/-- Row of `rating_snapshots`. -/
structure RatingSnapshotRow where
  league_id : String
  season_id : String
  player_id : String
  mode : String
  rating : Int
  as_of_match_id : String
  computed_at : Nat
deriving DecidableEq

/-- Row of `player_achievements`. -/
structure PlayerAchievementRow where
  player_id : String
  league_id : String
  achievement_type : String
  trigger_match_id : String
  progress_value : Option Int
deriving DecidableEq

/-- Row of `stats_snapshots`; `data_json` is the rendered payload. -/
structure StatsSnapshotRow where
  league_id : String
  season_id : String
  snapshot_type : String
  data_json : String
  computed_at : Nat
  source_hash : String
deriving DecidableEq

/-- The relational store as seen by the worker jobs. -/
structure WorkerDB where
  «matches» : List MatchRow
  match_players : List MatchPlayerRow
  match_events : List MatchEventRow
  rating_snapshots : List RatingSnapshotRow
  player_achievements : List PlayerAchievementRow
  stats_snapshots : List StatsSnapshotRow
deriving DecidableEq

/-- Return value of a worker job: the returned dictionary (`ok` /
`skipped` / `error`) or a raised `self.retry(countdown := n)`. -/
inductive JobResult where
  | ok (info : String)
  | skipped (reason : String)
  | error (reason : String)
  | retry (countdown : Nat)
deriving DecidableEq

/-! ## Stats engine (`apps/worker/tasks/stats.py`) -/

/-- One `"id:created_at"` entry of the hash input; `toString` models the
injective `isoformat()` rendering of the timestamp. -/
def matchHashEntry (m : MatchRow) : String :=
  m.id ++ ":" ++ toString m.created_at

/-- `compute_source_hash`: SHA-256 over the `"|"`-joined
`"id:created_at"` entries of the matches sorted by id (`sorted` with
`key=str(m.id)`). -/
def compute_source_hash («matches» : List MatchRow) : String :=
  let sorted_matches := «matches».insertionSort (fun a b => a.id ≤ b.id)
  SHA256.sha256hex (String.intercalate "|" (sorted_matches.map matchHashEntry))

/-- The match set feeding the stats recomputation: valid matches of the
league and season, ordered by `played_at`. -/
def statsValidMatches (db : WorkerDB) (league_id season_id : String) :
    List MatchRow :=
  (db.matches.filter (fun m =>
    m.league_id = league_id ∧ m.season_id = season_id ∧
      m.status = MatchStatus.VALID)).insertionSort
    (fun a b => a.played_at ≤ b.played_at)

/-- `recompute_league_stats`.  The three payload computations
(`compute_leaderboards` / `compute_synergy` / `compute_matchups`) only
produce the `data_json` blobs; the caching contract under verification is
independent of their content, so they are taken as parameters
(`payload db league_id season_id matches`) and the theorems quantify over
them. -/
def recompute_league_stats
    (compute_leaderboards compute_synergy compute_matchups :
      WorkerDB → String → String → List MatchRow → String)
    (db : WorkerDB) (now : Nat) (league_id season_id : String) :
    JobResult × WorkerDB :=
  let «matches» := statsValidMatches db league_id season_id
  if «matches» = [] then
    (.skipped "No matches", db)
  else
    let source_hash := compute_source_hash «matches»
    if db.stats_snapshots.any (fun s =>
        s.league_id = league_id ∧ s.season_id = season_id ∧
          s.source_hash = source_hash) then
      (.skipped "Stats unchanged", db)
    else
      let leaderboards := compute_leaderboards db league_id season_id «matches»
      let synergy := compute_synergy db league_id season_id «matches»
      let matchups := compute_matchups db league_id season_id «matches»
      let kept := db.stats_snapshots.filter (fun s =>
        ¬ (s.league_id = league_id ∧ s.season_id = season_id ∧
          (s.snapshot_type = "leaderboards" ∨ s.snapshot_type = "synergy" ∨
            s.snapshot_type = "matchups")))
      (.ok "stats recomputed",
       { db with
          stats_snapshots := kept ++
            [{ league_id := league_id, season_id := season_id,
               snapshot_type := "leaderboards", data_json := leaderboards,
               computed_at := now, source_hash := source_hash },
             { league_id := league_id, season_id := season_id,
               snapshot_type := "synergy", data_json := synergy,
               computed_at := now, source_hash := source_hash },
             { league_id := league_id, season_id := season_id,
               snapshot_type := "matchups", data_json := matchups,
               computed_at := now, source_hash := source_hash }] })

/-! ## Rating engine (`apps/worker/tasks/ratings.py`)

Python float arithmetic is idealised: exact fractions (team averages, the
margin function) live in `ℚ`, the transcendental expected-score formula
in `ℝ`.  Python's `round` (round-half-to-even) is `roundPy`. -/

/-- `K_FACTOR = 32`. -/
def K_FACTOR : Int := 32

/-- `INITIAL_RATING = 1200`. -/
def INITIAL_RATING : Int := 1200

/-- `calculate_expected_score(rating_a, rating_b)`:
`1 / (1 + 10 ** ((rating_b - rating_a) / 400))`. -/
noncomputable def calculate_expected_score (rating_a rating_b : ℚ) : ℝ :=
  1 / (1 + (10 : ℝ) ^ (((rating_b : ℝ) - (rating_a : ℝ)) / 400))

/-- `calculate_actual_score(winner, score_for, score_against)`:
`0.5 + (score_for - score_against) / 10 * 0.5`.  The `winner` argument is
kept because the source takes it (it is not used). -/
def calculate_actual_score (winner : Bool) (score_for score_against : Int) : ℚ :=
  let score_diff : ℚ := (score_for : ℚ) - (score_against : ℚ)
  let max_diff : ℚ := 10
  let margin_factor := score_diff / max_diff * (1 / 2)
  1 / 2 + margin_factor

/-- Python's `round`: nearest integer, ties to the even one. -/
noncomputable def roundPy (x : ℝ) : ℤ :=
  if x - ⌊x⌋ < 1 / 2 then ⌊x⌋
  else if 1 / 2 < x - ⌊x⌋ then ⌊x⌋ + 1
  else if Even ⌊x⌋ then ⌊x⌋ else ⌊x⌋ + 1

/-- `calculate_new_rating(old, expected, actual)`:
`round(old + K_FACTOR * (actual - expected))`. -/
noncomputable def calculate_new_rating (old_rating : Int) (expected : ℝ)
    (actual : ℚ) : Int :=
  roundPy ((old_rating : ℝ) + (K_FACTOR : ℝ) * ((actual : ℝ) - expected))

/-- Python's `int()` on an exact fraction: truncation toward zero. -/
def pyInt (q : ℚ) : Int := q.num.tdiv q.den

/-- The most recent rating snapshot for a player / league / mode
(`order_by computed_at desc, limit 1`). -/
def latest_snapshot (snaps : List RatingSnapshotRow)
    (player_id league_id mode : String) : Option RatingSnapshotRow :=
  ((snaps.filter (fun s =>
    s.player_id = player_id ∧ s.league_id = league_id ∧
      s.mode = mode)).insertionSort
    (fun a b => b.computed_at ≤ a.computed_at)).head?

/-- The prior rating used by the job: the most recent snapshot's rating,
defaulting to `INITIAL_RATING` when none exists. -/
def prior_rating (snaps : List RatingSnapshotRow)
    (player_id league_id mode : String) : Int :=
  match latest_snapshot snaps player_id league_id mode with
  | some s => s.rating
  | none => INITIAL_RATING

/-! ### Achievement checking (side writes of the rating job) -/

/-- Aggregates returned by `compute_player_stats_for_achievement`. -/
structure PlayerAchStats where
  total_matches : Nat
  total_wins : Nat
  current_streak : Nat
  gamelles_delivered : Int
deriving DecidableEq

/-- Join rows `(match, team)` for a player's valid matches of the league
and season ordered by `played_at` (match ids are primary keys). -/
def player_match_rows (db : WorkerDB)
    (player_id league_id season_id : String) : List (MatchRow × String) :=
  ((db.matches.filter (fun m =>
      m.league_id = league_id ∧ m.season_id = season_id ∧
        m.status = MatchStatus.VALID)).insertionSort
      (fun a b => a.played_at ≤ b.played_at)).flatMap
    (fun m => (db.match_players.filter (fun mp =>
      mp.match_id = m.id ∧ mp.player_id = player_id)).map (fun mp => (m, mp.team)))

/-- `compute_player_stats_for_achievement`. -/
def compute_player_stats_for_achievement (db : WorkerDB)
    (player_id league_id season_id : String) : PlayerAchStats :=
  let rows := player_match_rows db player_id league_id season_id
  let ws := rows.foldl (fun (acc : Nat × Nat) r =>
    let team_a_won : Bool := r.1.team_b_score < r.1.team_a_score
    let player_won : Bool :=
      (r.2 == "A" && team_a_won) || (r.2 == "B" && !team_a_won)
    if player_won then (acc.1 + 1, acc.2 + 1) else (acc.1, 0)) (0, 0)
  let gamelles := ((db.match_events.filter (fun ev =>
    ev.by_player_id = some player_id ∧ ev.event_type = EventType.GAMELLE ∧
      db.matches.any (fun m =>
        m.id = ev.match_id ∧ m.league_id = league_id ∧
          m.season_id = season_id ∧ m.status = MatchStatus.VALID))).map
    (fun ev => ev.count)).sum
  { total_matches := rows.length, total_wins := ws.1,
    current_streak := ws.2, gamelles_delivered := gamelles }

/-- One conditional `award(...)` call: a row is produced when the
condition holds and the type is not already present. -/
def awardRow (existing : List String) (player_id league_id match_id : String)
    (cond : Bool) (achievement_type : String) (progress : Option Int) :
    List PlayerAchievementRow :=
  if cond && !(existing.contains achievement_type) then
    [{ player_id := player_id, league_id := league_id,
       achievement_type := achievement_type, trigger_match_id := match_id,
       progress_value := progress }]
  else
    []

/-- `check_and_award_achievements`: the candidate awards in source order.
`achievements` is the current content of `player_achievements`
(including rows pending from earlier iterations of the same job, which
the source's autoflushing re-query would see). -/
def check_and_award_achievements (achievements : List PlayerAchievementRow)
    (player_id league_id : String) (m : MatchRow) (player_won : Bool)
    (current_streak total_wins total_matches : Nat)
    (gamelles_delivered : Int) (opponent_avg_elo player_elo : Int) :
    List PlayerAchievementRow :=
  let existing := (achievements.filter (fun a =>
    a.player_id = player_id ∧ a.league_id = league_id)).map
    (fun a => a.achievement_type)
  let award := awardRow existing player_id league_id m.id
  let player_team_score :=
    if m.team_b_score < m.team_a_score then m.team_a_score else m.team_b_score
  let opponent_score :=
    if m.team_b_score < m.team_a_score then m.team_b_score else m.team_a_score
  award (player_won && total_wins == 1) "first_win" none ++
  award (player_won && 10 ≤ total_wins) "wins_10" (some 10) ++
  award (player_won && 50 ≤ total_wins) "wins_50" (some 50) ++
  award (player_won && 100 ≤ total_wins) "wins_100" (some 100) ++
  award (10 ≤ total_matches) "matches_10" (some 10) ++
  award (50 ≤ total_matches) "matches_50" (some 50) ++
  award (100 ≤ total_matches) "matches_100" (some 100) ++
  award (player_won && 3 ≤ current_streak) "win_streak_3" (some 3) ++
  award (player_won && 5 ≤ current_streak) "win_streak_5" (some 5) ++
  award (player_won && 10 ≤ current_streak) "win_streak_10" (some 10) ++
  award (1 ≤ gamelles_delivered) "first_gamelle" none ++
  award (5 ≤ gamelles_delivered) "gamelles_5" (some 5) ++
  award (10 ≤ gamelles_delivered) "gamelles_10" (some 10) ++
  award (25 ≤ gamelles_delivered) "gamelle_master" (some 25) ++
  award (player_won && player_team_score == 10 && opponent_score == 0)
    "flawless" none ++
  award (player_won && 100 ≤ opponent_avg_elo - player_elo)
    "giant_slayer" none

/-! ### The rating job -/

/-- A Python exception raised inside the task body (the only one arising
in the modelled fragment is `ZeroDivisionError` from an empty side). -/
inductive PyExc where
  | zeroDivision
deriving DecidableEq

/-- `sum(...) / len(...)`: raises `ZeroDivisionError` on an empty list. -/
def pyDivByLen (total : ℚ) (len : Nat) : Except PyExc ℚ :=
  if len = 0 then .error .zeroDivision else .ok (total / (len : ℚ))

/-- The participant rows of the match (`MatchPlayer` query). -/
def jobMatchPlayers (db : WorkerDB) (match_id : String) : List MatchPlayerRow :=
  db.match_players.filter (fun mp => mp.match_id = match_id)

/-- The participant rows of one side. -/
def jobTeamPlayers (db : WorkerDB) (match_id team : String) :
    List MatchPlayerRow :=
  (jobMatchPlayers db match_id).filter (fun mp => mp.team = team)

/-- The prior ratings summed for a side (numerator of the average). -/
def jobTeamRatingSum (db : WorkerDB) (match_id team : String) (m : MatchRow) : ℚ :=
  ((jobTeamPlayers db match_id team).map (fun mp =>
    ((prior_rating db.rating_snapshots mp.player_id m.league_id m.mode : ℚ)))).sum

/-- The `new_ratings` dictionary rendered as snapshot rows (keyed by
player id, insertion-ordered: team-A entries then team-B entries;
participants of a well-formed match are distinct).  For each player the
expected score is computed from the player's own prior rating against the
opposing side's average. -/
noncomputable def jobSnapshots (db : WorkerDB) (now : Nat) (match_id : String)
    (m : MatchRow) (team_a_avg team_b_avg : ℚ) : List RatingSnapshotRow :=
  let team_a_won : Bool := m.team_b_score < m.team_a_score
  let player_rating := fun (pid : String) =>
    prior_rating db.rating_snapshots pid m.league_id m.mode
  (jobTeamPlayers db match_id "A").map (fun mp =>
    { league_id := m.league_id, season_id := m.season_id,
      player_id := mp.player_id, mode := m.mode,
      rating := calculate_new_rating (player_rating mp.player_id)
        (calculate_expected_score ((player_rating mp.player_id : ℚ)) team_b_avg)
        (calculate_actual_score team_a_won m.team_a_score m.team_b_score),
      as_of_match_id := match_id, computed_at := now }) ++
  (jobTeamPlayers db match_id "B").map (fun mp =>
    { league_id := m.league_id, season_id := m.season_id,
      player_id := mp.player_id, mode := m.mode,
      rating := calculate_new_rating (player_rating mp.player_id)
        (calculate_expected_score ((player_rating mp.player_id : ℚ)) team_a_avg)
        (calculate_actual_score (!team_a_won) m.team_b_score m.team_a_score),
      as_of_match_id := match_id, computed_at := now })

/-- The achievement rows written by the job (one loop iteration per
participant; each iteration's re-query sees the rows already pending). -/
def jobAchievements (db : WorkerDB) (match_id : String) (m : MatchRow)
    (team_a_avg team_b_avg : ℚ) : List PlayerAchievementRow :=
  let team_a_won : Bool := m.team_b_score < m.team_a_score
  (jobMatchPlayers db match_id).foldl
    (fun (acc : List PlayerAchievementRow) mp =>
      let player_won : Bool :=
        (mp.team == "A" && team_a_won) || (mp.team == "B" && !team_a_won)
      let opponent_avg_elo :=
        if mp.team == "A" then pyInt team_b_avg else pyInt team_a_avg
      let stats := compute_player_stats_for_achievement db mp.player_id
        m.league_id m.season_id
      acc ++ check_and_award_achievements (db.player_achievements ++ acc)
        mp.player_id m.league_id m player_won stats.current_streak
        stats.total_wins stats.total_matches stats.gamelles_delivered
        opponent_avg_elo
        (prior_rating db.rating_snapshots mp.player_id m.league_id m.mode)) []

/-- The `try:` body of `update_ratings_for_match`. -/
noncomputable def update_ratings_body (db : WorkerDB) (now : Nat)
    (match_id : String) : Except PyExc (JobResult × WorkerDB) := do
  match db.matches.find? (fun m => m.id = match_id) with
  | none => return (.error "Match not found", db)
  | some m =>
    if m.status ≠ MatchStatus.VALID then
      return (.skipped "Match is not valid", db)
    else
      if jobMatchPlayers db match_id = [] then
        return (.error "No players in match", db)
      else
        let existing := db.rating_snapshots.filter (fun s =>
          s.as_of_match_id = match_id ∧ s.mode = m.mode)
        if existing ≠ [] then
          return (.skipped "Ratings already computed for this match", db)
        else
          let team_a_avg ← pyDivByLen (jobTeamRatingSum db match_id "A" m)
            (jobTeamPlayers db match_id "A").length
          let team_b_avg ← pyDivByLen (jobTeamRatingSum db match_id "B" m)
            (jobTeamPlayers db match_id "B").length
          return (.ok "ratings updated",
            { db with
                rating_snapshots := db.rating_snapshots ++
                  jobSnapshots db now match_id m team_a_avg team_b_avg
                player_achievements := db.player_achievements ++
                  jobAchievements db match_id m team_a_avg team_b_avg })

/-- `update_ratings_for_match` (Celery task, `bind=True, max_retries=5`):
on an exception the whole transaction is discarded and
`self.retry(countdown=2 ** self.request.retries)` is raised. -/
noncomputable def update_ratings_for_match (db : WorkerDB) (now : Nat)
    (retries : Nat) (match_id : String) : JobResult × WorkerDB :=
  match update_ratings_body db now match_id with
  | .ok r => r
  | .error _ => (.retry (2 ^ retries), db)

/-- The task's bounded attempt count (`max_retries=5`). -/
def update_ratings_max_retries : Nat := 5

/-- State of the worker database after the same match-id job has been
delivered `n` times (at-least-once queue semantics); delivery `k` runs at
time `times k` with a fresh attempt counter. -/
noncomputable def dispatchRatingJobs (db : WorkerDB) (match_id : String)
    (times : Nat → Nat) : Nat → WorkerDB
  | 0 => db
  | n + 1 =>
    (update_ratings_for_match (dispatchRatingJobs db match_id times n)
      (times n) 0 match_id).2

/-! ## Helper lemmas: score effect of recording and undoing -/

/-- Delta an event input will apply to side A. -/
def inputDeltaA (d : LiveMatchEventInput) : Int :=
  match d.team with
  | none => 0
  | some t => if t = "A" then eventScoreDelta d.event_type else 0

/-- Delta an event input will apply to side B. -/
def inputDeltaB (d : LiveMatchEventInput) : Int :=
  match d.team with
  | none => 0
  | some t => if t = "A" then 0 else eventScoreDelta d.event_type

theorem record_event_team_a_score (session : LiveMatchSession)
    (data : LiveMatchEventInput) (now : Nat) :
    (record_event session data now).1.team_a_score =
      session.team_a_score + inputDeltaA data := by
  unfold record_event inputDeltaA eventScoreDelta
  cases data.team with
  | none => simp
  | some t => by_cases ht : t = "A" <;> split_ifs <;> simp [ht] <;> ring

theorem record_event_team_b_score (session : LiveMatchSession)
    (data : LiveMatchEventInput) (now : Nat) :
    (record_event session data now).1.team_b_score =
      session.team_b_score + inputDeltaB data := by
  unfold record_event inputDeltaB eventScoreDelta
  cases data.team with
  | none => simp
  | some t => by_cases ht : t = "A" <;> split_ifs <;> simp [ht] <;> ring

theorem record_event_snd (session : LiveMatchSession)
    (data : LiveMatchEventInput) (now : Nat) :
    (record_event session data now).2 =
      { id := session.events.length
        event_type := data.event_type
        team := data.team
        by_player_id := data.by_player_id
        against_player_id := data.against_player_id
        custom_type := data.custom_type
        elapsed_seconds := data.elapsed_seconds
        recorded_at := now
        undone_at := none } := by
  unfold record_event
  cases data.team <;> split_ifs <;> rfl

theorem record_event_events (session : LiveMatchSession)
    (data : LiveMatchEventInput) (now : Nat) :
    (record_event session data now).1.events =
      session.events ++ [(record_event session data now).2] := by
  unfold record_event
  cases data.team with
  | none => rfl
  | some t => by_cases ht : t = "A" <;> split_ifs <;> simp [ht]

theorem eventDeltaA_record (session : LiveMatchSession)
    (data : LiveMatchEventInput) (now : Nat) :
    eventDeltaA (record_event session data now).2 = inputDeltaA data := by
  rw [record_event_snd]
  unfold eventDeltaA inputDeltaA
  cases data.team <;> rfl

theorem eventDeltaB_record (session : LiveMatchSession)
    (data : LiveMatchEventInput) (now : Nat) :
    eventDeltaB (record_event session data now).2 = inputDeltaB data := by
  rw [record_event_snd]
  unfold eventDeltaB inputDeltaB
  cases data.team <;> rfl

theorem update_session_status_preserves (session : LiveMatchSession)
    (new_status : String) (now : Nat) :
    (update_session_status session new_status now).team_a_score = session.team_a_score ∧
    (update_session_status session new_status now).team_b_score = session.team_b_score ∧
    (update_session_status session new_status now).events = session.events ∧
    (update_session_status session new_status now).players = session.players ∧
    (update_session_status session new_status now).finalized_match_id =
      session.finalized_match_id := by
  unfold update_session_status
  dsimp only
  split_ifs <;> exact ⟨rfl, rfl, rfl, rfl, rfl⟩

theorem undo_event_team_a_score (session : LiveMatchSession)
    (event : LiveMatchSessionEvent) (now : Nat) :
    (undo_event session event now).1.team_a_score =
      session.team_a_score - eventDeltaA event := by
  unfold undo_event eventDeltaA eventScoreDelta
  cases event.team with
  | none => simp
  | some t => by_cases ht : t = "A" <;> split_ifs <;> simp [ht]

theorem undo_event_team_b_score (session : LiveMatchSession)
    (event : LiveMatchSessionEvent) (now : Nat) :
    (undo_event session event now).1.team_b_score =
      session.team_b_score - eventDeltaB event := by
  unfold undo_event eventDeltaB eventScoreDelta
  cases event.team with
  | none => simp
  | some t => by_cases ht : t = "A" <;> split_ifs <;> simp [ht]

theorem undo_event_events (session : LiveMatchSession)
    (event : LiveMatchSessionEvent) (now : Nat) :
    (undo_event session event now).1.events =
      session.events.map (fun e =>
        if e.id = event.id then { event with undone_at := some now } else e) := by
  unfold undo_event
  cases event.team with
  | none => rfl
  | some t => by_cases ht : t = "A" <;> split_ifs <;> simp [ht]

/-- Marking one not-undone event (located by its id, unique in the list)
as undone removes exactly its contribution from the not-undone delta
sum. -/
theorem deltaSum_mark_undone (f : LiveMatchSessionEvent → Int) :
    ∀ (events : List LiveMatchSessionEvent) (e : LiveMatchSessionEvent)
      (now : Nat), e ∈ events →
      (events.map (fun x => x.id)).Nodup → e.undone_at = none →
      (((events.map (fun x =>
          if x.id = e.id then { e with undone_at := some now } else x)).filter
        (fun x => x.undone_at = none)).map f).sum =
      (((events.filter (fun x => x.undone_at = none)).map f).sum) - f e := by
  intro events
  induction events with
  | nil => intro e now hmem; simp at hmem
  | cons x rest ih =>
    intro e now hmem hnodup hund
    simp only [List.map_cons, List.nodup_cons] at hnodup
    by_cases hx : x.id = e.id
    · have hex : e = x := by
        rcases List.mem_cons.mp hmem with h | h
        · exact h
        · exact absurd (hx ▸ List.mem_map_of_mem (fun y => y.id) h) hnodup.1
      subst hex
      have hrest : rest.map (fun y =>
          if y.id = e.id then { e with undone_at := some now } else y) = rest := by
        conv_rhs => rw [← List.map_id rest]
        apply List.map_congr_left
        intro y hy
        have hne : y.id ≠ e.id := by
          intro hcontra
          exact hnodup.1 (hcontra ▸ List.mem_map_of_mem (fun z => z.id) hy)
        simp [hne]
      simp only [List.map_cons, if_pos rfl, hrest, List.filter_cons, hund]
      simp

    · have hmem' : e ∈ rest := by
        rcases List.mem_cons.mp hmem with h | h
        · exact absurd (congrArg (fun z => z.id) h.symm) hx
        · exact h
      have := ih e now hmem' hnodup.2 hund
      simp only [List.map_cons, if_neg hx, List.filter_cons]
      by_cases hux : x.undone_at = none <;> simp [hux, this] <;> ring

theorem deltaSum_append_nonundone (f : LiveMatchSessionEvent → Int)
    (events : List LiveMatchSessionEvent) (ev : LiveMatchSessionEvent)
    (h : ev.undone_at = none) :
    (((events ++ [ev]).filter (fun x => x.undone_at = none)).map f).sum =
      ((events.filter (fun x => x.undone_at = none)).map f).sum + f ev := by
  simp [List.filter_append, h]

theorem ids_of_marked (events : List LiveMatchSessionEvent)
    (e : LiveMatchSessionEvent) (now : Nat) :
    ((events.map (fun x =>
      if x.id = e.id then { e with undone_at := some now } else x)).map
        (fun x => x.id)) = events.map (fun x => x.id) := by
  rw [List.map_map]
  apply List.map_congr_left
  intro x _
  by_cases hx : x.id = e.id <;> simp [hx]

/-- Score/event-log invariant of the route-level operational semantics:
the running score is the base score plus the delta sum of the not-undone
events, and event ids are consecutive. -/
def ScoreInvariant (baseA baseB : Int) (s : LiveMatchSession) : Prop :=
  s.team_a_score = baseA + liveDeltaSumA s.events ∧
  s.team_b_score = baseB + liveDeltaSumB s.events ∧
  s.events.map (fun e => e.id) = List.range s.events.length

theorem update_session_status_invariant (baseA baseB : Int)
    (s : LiveMatchSession) (new_status : String) (now : Nat)
    (h : ScoreInvariant baseA baseB s) :
    ScoreInvariant baseA baseB (update_session_status s new_status now) := by
  obtain ⟨p1, p2, p3, _, _⟩ := update_session_status_preserves s new_status now
  exact ⟨by rw [p1, p3, h.1], by rw [p2, p3, h.2.1], by rw [p3, h.2.2]⟩

theorem record_event_invariant (baseA baseB : Int) (s : LiveMatchSession)
    (data : LiveMatchEventInput) (now : Nat)
    (h : ScoreInvariant baseA baseB s) :
    ScoreInvariant baseA baseB (record_event s data now).1 := by
  obtain ⟨h1, h2, h3⟩ := h
  have hev := record_event_events s data now
  have hndA := eventDeltaA_record s data now
  have hndB := eventDeltaB_record s data now
  have hundone : (record_event s data now).2.undone_at = none := by
    rw [record_event_snd]
  refine ⟨?_, ?_, ?_⟩
  · rw [record_event_team_a_score, h1]
    unfold liveDeltaSumA
    rw [hev, deltaSum_append_nonundone _ _ _ hundone, hndA]
    ring
  · rw [record_event_team_b_score, h2]
    unfold liveDeltaSumB
    rw [hev, deltaSum_append_nonundone _ _ _ hundone, hndB]
    ring
  · rw [hev, record_event_snd]
    simp [List.range_succ, h3]

theorem applySessionOp_invariant (baseA baseB : Int) (s : LiveMatchSession)
    (op : SessionOp) (h : ScoreInvariant baseA baseB s) :
    ScoreInvariant baseA baseB (applySessionOp s op) := by
  obtain ⟨h1, h2, h3⟩ := h
  cases op with
  | record data now =>
    show ScoreInvariant baseA baseB (record_live_match_event s data now).2
    unfold record_live_match_event
    split_ifs with hv hs hw <;>
      first
      | exact ⟨h1, h2, h3⟩
      | exact record_event_invariant baseA baseB _ data now
          (update_session_status_invariant baseA baseB s _ now ⟨h1, h2, h3⟩)
      | exact record_event_invariant baseA baseB s data now ⟨h1, h2, h3⟩
  | undo event_id now =>
    show ScoreInvariant baseA baseB (undo_live_match_event s event_id now).2
    unfold undo_live_match_event
    cases hfind : s.events.find? (fun e => e.id = event_id) with
    | none => exact ⟨h1, h2, h3⟩
    | some e =>
      dsimp only
      by_cases hu : e.undone_at ≠ none
      · rw [if_pos hu]
        exact ⟨h1, h2, h3⟩
      · push_neg at hu
        rw [if_neg (by simp [hu])]
        have hmem : e ∈ s.events := List.mem_of_find?_eq_some hfind
        have hnodup : (s.events.map (fun x => x.id)).Nodup := by
          rw [h3]; exact List.nodup_range _
        have hevents := undo_event_events s e now
        refine ⟨?_, ?_, ?_⟩
        · show (undo_event s e now).1.team_a_score = _
          rw [undo_event_team_a_score, h1]
          unfold liveDeltaSumA
          rw [hevents, deltaSum_mark_undone eventDeltaA s.events e now hmem hnodup hu]
          ring
        · show (undo_event s e now).1.team_b_score = _
          rw [undo_event_team_b_score, h2]
          unfold liveDeltaSumB
          rw [hevents, deltaSum_mark_undone eventDeltaB s.events e now hmem hnodup hu]
          ring
        · show (undo_event s e now).1.events.map (fun x => x.id) = _
          rw [hevents, ids_of_marked, h3]
          simp

theorem runSessionOps_invariant (baseA baseB : Int) (ops : List SessionOp) :
    ∀ (s : LiveMatchSession), ScoreInvariant baseA baseB s →
      ScoreInvariant baseA baseB (runSessionOps s ops) := by
  induction ops with
  | nil => intro s h; exact h
  | cons op rest ih =>
    intro s h
    exact ih (applySessionOp s op) (applySessionOp_invariant baseA baseB s op h)

/-! ## Concrete fixtures used by claim scenarios and witnesses -/

/-- A `penalty-major` ("lobbed") event input for side A. -/
def lobbedAInput : LiveMatchEventInput :=
  { event_type := "lobbed", team := some "A", by_player_id := none,
    against_player_id := none, custom_type := none, elapsed_seconds := none }

/-- A goal event input for side A. -/
def goalAInput : LiveMatchEventInput :=
  { event_type := "goal", team := some "A", by_player_id := none,
    against_player_id := none, custom_type := none, elapsed_seconds := none }

/-- An active session at score 2–0 with an empty event log. -/
def penaltyScenarioSession : LiveMatchSession :=
  { league_id := "L1", season_id := "S1", share_token := "tok",
    scorer_secret := none, mode := "1v1", status := "active",
    team_a_score := 2, team_b_score := 0, started_at := some 0,
    ended_at := none, created_at := 0, updated_at := 0,
    finalized_match_id := none, players := [], events := [] }

/-- A freshly created (waiting, 0–0, no events) session. -/
def freshSession : LiveMatchSession :=
  { league_id := "L1", season_id := "S1", share_token := "tok2",
    scorer_secret := none, mode := "1v1", status := "waiting",
    team_a_score := 0, team_b_score := 0, started_at := none,
    ended_at := none, created_at := 0, updated_at := 0,
    finalized_match_id := none, players := [], events := [] }

/-- Record a goal and a major penalty, then undo both (out of order). -/
def interleavedOps : List SessionOp :=
  [.record goalAInput 0, .record lobbedAInput 1, .undo 0 2, .undo 1 3]

/-! ## C1 -/

/-- C1: undoing an event applies the exact inverse of its original score
delta, so after any interleaving of route-level record/undo operations in
which every event of the final log is undone, the running score equals
the score before any event was recorded; in particular recording a
`lobbed` (penalty-major) event for side A at 2–0 gives −1–0 and undoing
it restores 2–0. -/
theorem undo_all_restores_score (s0 : LiveMatchSession)
    (ops : List SessionOp) (h0 : s0.events = [])
    (hdone : ∀ e ∈ (runSessionOps s0 ops).events, e.undone_at ≠ none) :
    ((runSessionOps s0 ops).team_a_score = s0.team_a_score ∧
     (runSessionOps s0 ops).team_b_score = s0.team_b_score) ∧
    ((record_live_match_event penaltyScenarioSession lobbedAInput 0).2.team_a_score = -1 ∧
     (record_live_match_event penaltyScenarioSession lobbedAInput 0).2.team_b_score = 0 ∧
     (undo_live_match_event
       (record_live_match_event penaltyScenarioSession lobbedAInput 0).2 0 1).2.team_a_score = 2 ∧
     (undo_live_match_event
       (record_live_match_event penaltyScenarioSession lobbedAInput 0).2 0 1).2.team_b_score = 0) := by
  constructor
  · have hinv0 : ScoreInvariant s0.team_a_score s0.team_b_score s0 := by
      refine ⟨?_, ?_, ?_⟩ <;> simp [h0, liveDeltaSumA, liveDeltaSumB]
    have hinv := runSessionOps_invariant s0.team_a_score s0.team_b_score ops s0 hinv0
    obtain ⟨hA, hB, _⟩ := hinv
    have hfilter : (runSessionOps s0 ops).events.filter
        (fun x => x.undone_at = none) = [] := by
      rw [List.filter_eq_nil_iff]
      intro a ha
      simpa using hdone a ha
    constructor
    · rw [hA]
      unfold liveDeltaSumA
      rw [hfilter]
      simp
    · rw [hB]
      unfold liveDeltaSumB
      rw [hfilter]
      simp
  · exact ⟨by decide, by decide, by decide, by decide⟩

/-- Witness for `undo_all_restores_score` at a concrete operation
sequence. -/
theorem undo_all_restores_score_witness :
    (freshSession.events = [] ∧
     (∀ e ∈ (runSessionOps freshSession interleavedOps).events,
       e.undone_at ≠ none)) ∧
    ((runSessionOps freshSession interleavedOps).team_a_score =
       freshSession.team_a_score ∧
     (runSessionOps freshSession interleavedOps).team_b_score =
       freshSession.team_b_score) :=
  ⟨⟨rfl, by decide⟩,
   (undo_all_restores_score freshSession interleavedOps rfl (by decide)).1⟩

/-! ## C2 -/

/-- C2: for a session in `waiting` or `active` status and a (pydantic-
valid) event input carrying a side, the record route applies exactly the
deterministic delta of the event type to that side — goal +1,
gamellized −1, lobbed −3, timeout/custom 0 — with no lower floor, and
returns the updated running score of both sides. -/
theorem record_event_applies_deterministic_delta (session : LiveMatchSession)
    (data : LiveMatchEventInput) (now : Nat) (t : String)
    (hschema : data.schemaValid = true) (hteam : data.team = some t)
    (hstatus : session.status = LiveMatchStatus.WAITING ∨
      session.status = LiveMatchStatus.ACTIVE) :
    (eventScoreDelta LiveEventType.GOAL = 1 ∧
     eventScoreDelta LiveEventType.GAMELLIZED = -1 ∧
     eventScoreDelta LiveEventType.LOBBED = -3 ∧
     eventScoreDelta LiveEventType.TIMEOUT = 0 ∧
     eventScoreDelta LiveEventType.CUSTOM = 0) ∧
    (record_live_match_event session data now).1 =
      ApiOutcome.ok
        { event_id := session.events.length
          team_a_score := session.team_a_score +
            (if t = "A" then eventScoreDelta data.event_type else 0)
          team_b_score := session.team_b_score +
            (if t = "B" then eventScoreDelta data.event_type else 0) } ∧
    (record_live_match_event session data now).2.team_a_score =
      session.team_a_score +
        (if t = "A" then eventScoreDelta data.event_type else 0) ∧
    (record_live_match_event session data now).2.team_b_score =
      session.team_b_score +
        (if t = "B" then eventScoreDelta data.event_type else 0) := by
  have htAB : t = "A" ∨ t = "B" := by
    unfold LiveMatchEventInput.schemaValid at hschema
    rw [hteam] at hschema
    rcases Bool.and_eq_true_iff.mp hschema with ⟨_, h2⟩
    rcases Bool.or_eq_true_iff.mp h2 with h | h
    · exact Or.inl (by simpa using h)
    · exact Or.inr (by simpa using h)
  have hdA : inputDeltaA data =
      (if t = "A" then eventScoreDelta data.event_type else 0) := by
    unfold inputDeltaA
    rw [hteam]
  have hdB : inputDeltaB data =
      (if t = "B" then eventScoreDelta data.event_type else 0) := by
    unfold inputDeltaB
    rw [hteam]
    rcases htAB with h | h <;> simp [h]
  refine ⟨⟨rfl, rfl, rfl, rfl, rfl⟩, ?_⟩
  unfold record_live_match_event
  rw [if_neg (by simp [hschema]), if_neg (by simp [hstatus])]
  dsimp only
  set s1 := (if session.status = LiveMatchStatus.WAITING then
    update_session_status session LiveMatchStatus.ACTIVE now else session) with hs1
  have p1 : s1.team_a_score = session.team_a_score := by
    rw [hs1]
    split_ifs
    · exact (update_session_status_preserves session LiveMatchStatus.ACTIVE now).1
    · rfl
  have p2 : s1.team_b_score = session.team_b_score := by
    rw [hs1]
    split_ifs
    · exact (update_session_status_preserves session LiveMatchStatus.ACTIVE now).2.1
    · rfl
  have p3 : s1.events = session.events := by
    rw [hs1]
    split_ifs
    · exact (update_session_status_preserves session LiveMatchStatus.ACTIVE now).2.2.1
    · rfl
  have hid : (record_event s1 data now).2.id = session.events.length := by
    rw [record_event_snd]
    exact congrArg List.length p3
  have e1 : (record_event s1 data now).1.team_a_score =
      session.team_a_score + (if t = "A" then eventScoreDelta data.event_type else 0) := by
    rw [record_event_team_a_score, p1, hdA]
  have e2 : (record_event s1 data now).1.team_b_score =
      session.team_b_score + (if t = "B" then eventScoreDelta data.event_type else 0) := by
    rw [record_event_team_b_score, p2, hdB]
  exact ⟨by rw [hid, e1, e2], e1, e2⟩

/-- Witness for `record_event_applies_deterministic_delta`. -/
theorem record_event_applies_deterministic_delta_witness :
    (lobbedAInput.schemaValid = true ∧ lobbedAInput.team = some "A" ∧
     (penaltyScenarioSession.status = LiveMatchStatus.WAITING ∨
      penaltyScenarioSession.status = LiveMatchStatus.ACTIVE)) ∧
    (record_live_match_event penaltyScenarioSession lobbedAInput 5).2.team_a_score =
      penaltyScenarioSession.team_a_score +
        (if "A" = "A" then eventScoreDelta lobbedAInput.event_type else 0) :=
  ⟨⟨by decide, rfl, by decide⟩,
   (record_event_applies_deterministic_delta penaltyScenarioSession lobbedAInput
     5 "A" (by decide) rfl (by decide)).2.2.1⟩

/-! ## C6 -/

/-- A session that has been finalized into match `"m9"`. -/
def finalizedSession : LiveMatchSession :=
  { league_id := "L1", season_id := "S1", share_token := "tok3",
    scorer_secret := none, mode := "1v1", status := "completed",
    team_a_score := 10, team_b_score := 4, started_at := some 0,
    ended_at := some 8, created_at := 0, updated_at := 8,
    finalized_match_id := some "m9", players := [], events := [] }

/-- C6 counterexample: the claim says every mutating operation on a
finalized session is rejected, but the manual score override route has no
status guard: on a finalized session it succeeds and changes the
session's scores. -/
theorem finalized_session_score_override_accepted :
    finalizedSession.finalized_match_id = some "m9" ∧
    finalizedSession.status = LiveMatchStatus.COMPLETED ∧
    (update_live_match_score finalizedSession ⟨5, 5⟩ 9).1 = ApiOutcome.ok (5, 5) ∧
    (update_live_match_score finalizedSession ⟨5, 5⟩ 9).2.team_a_score ≠
      finalizedSession.team_a_score := by
  refine ⟨rfl, rfl, by decide, by decide⟩

/-- C6 (amended): once `finalized_match_id` is set the status is
`completed`; a second finalize (with `confirm`) fails with a `CONFLICT`
error and creates no match; recording events, status transitions and
abandoning are all rejected leaving the session unchanged — but the
manual score override is not status-guarded and still overwrites the
scores of a finalized session. -/
theorem finalized_session_guards (s : LiveMatchSession) (mid : String)
    (hfin : s.finalized_match_id = some mid)
    (hst : s.status = LiveMatchStatus.COMPLETED) :
    (∀ nmid now, finalize_live_match s true nmid now =
      (.err "CONFLICT" "Match already finalized", s, none)) ∧
    (∀ data now, (record_live_match_event s data now).2 = s ∧
      ∃ c m, (record_live_match_event s data now).1 = .err c m) ∧
    (∀ ns now, (update_live_match_status s ns now).2 = s ∧
      ∃ c m, (update_live_match_status s ns now).1 = .err c m) ∧
    (∀ now, (abandon_live_match s now).2 = s ∧
      ∃ c m, (abandon_live_match s now).1 = .err c m) ∧
    (∀ d now, d.schemaValid = true →
      (update_live_match_score s d now).2.team_a_score = d.team_a_score ∧
      (update_live_match_score s d now).2.team_b_score = d.team_b_score ∧
      (update_live_match_score s d now).1 =
        .ok (d.team_a_score, d.team_b_score)) := by
  refine ⟨?_, ?_, ?_, ?_, ?_⟩
  · intro nmid now
    unfold finalize_live_match
    rw [if_neg (by simp), if_pos ⟨hst, by simp [hfin]⟩]
  · intro data now
    unfold record_live_match_event
    by_cases hv : data.schemaValid = true
    · rw [if_neg (by simp [hv]), if_pos (by rw [hst]; decide)]
      exact ⟨rfl, "VALIDATION_ERROR", "Match is not active", rfl⟩
    · rw [if_pos (by simp [Bool.not_eq_true] at hv ⊢; exact hv)]
      exact ⟨rfl, "UNPROCESSABLE_ENTITY", "Invalid request body", rfl⟩
  · intro ns now
    unfold update_live_match_status
    have htr : valid_transitions s.status = [] := by
      rw [hst]; decide
    by_cases hsch : ns = LiveMatchStatus.ACTIVE ∨ ns = LiveMatchStatus.PAUSED ∨
        ns = LiveMatchStatus.COMPLETED ∨ ns = LiveMatchStatus.ABANDONED
    · rw [if_neg (by simp [hsch]), if_pos (by rw [htr]; simp)]
      exact ⟨rfl, "VALIDATION_ERROR", _, rfl⟩
    · rw [if_pos hsch]
      exact ⟨rfl, "UNPROCESSABLE_ENTITY", "Invalid request body", rfl⟩
  · intro now
    unfold abandon_live_match
    rw [if_pos (Or.inl hst)]
    exact ⟨rfl, "VALIDATION_ERROR", "Match already ended", rfl⟩
  · intro d now hd
    unfold update_live_match_score
    rw [if_neg (by simp [hd])]
    exact ⟨rfl, rfl, rfl⟩

/-- Witness for `finalized_session_guards`. -/
theorem finalized_session_guards_witness :
    (finalizedSession.finalized_match_id = some "m9" ∧
     finalizedSession.status = LiveMatchStatus.COMPLETED) ∧
    finalize_live_match finalizedSession true "m10" 11 =
      (.err "CONFLICT" "Match already finalized", finalizedSession, none) :=
  ⟨⟨rfl, rfl⟩, (finalized_session_guards finalizedSession "m9" rfl rfl).1 "m10" 11⟩

/-! ## C7 -/

/-- A session whose log holds one not-undone major penalty (lobbed) with
a target player, and one not-undone minor penalty (gamellized). -/
def lobbedEventSession : LiveMatchSession :=
  { league_id := "L1", season_id := "S1", share_token := "tok4",
    scorer_secret := none, mode := "1v1", status := "active",
    team_a_score := -2, team_b_score := 0, started_at := some 0,
    ended_at := none, created_at := 0, updated_at := 3,
    finalized_match_id := none,
    players := [{ player_id := "p1", team := "A", position := "attack" },
                { player_id := "p2", team := "B", position := "attack" }],
    events := [{ id := 0, event_type := "lobbed", team := some "A",
                 by_player_id := some "p2", against_player_id := some "p1",
                 custom_type := none, elapsed_seconds := some 10,
                 recorded_at := 1, undone_at := none },
               { id := 1, event_type := "gamellized", team := some "A",
                 by_player_id := some "p2", against_player_id := some "p1",
                 custom_type := none, elapsed_seconds := some 20,
                 recorded_at := 2, undone_at := none }] }

/-- C7 counterexample: the claim says both minor and major penalty events
are copied into the match's event log, but `finalize_session` copies only
the `gamellized` (minor) ones: the not-undone `lobbed` event with a
target player is dropped. -/
theorem finalize_drops_major_penalties :
    (∃ e ∈ lobbedEventSession.events, e.undone_at = none ∧
      e.event_type = LiveEventType.LOBBED ∧ e.against_player_id ≠ none) ∧
    (finalize_session lobbedEventSession "m1" 5).match_events =
      [{ match_id := "m1", event_type := EventType.GAMELLE,
         against_player_id := "p1", by_player_id := some "p2", count := 1 }] ∧
    ∀ me ∈ (finalize_session lobbedEventSession "m1" 5).match_events,
      me.event_type ≠ EventType.LOB := by
  refine ⟨by decide, by decide, by decide⟩

/-- C7 (amended): `finalize_session` copies exactly the session's
not-undone minor-penalty (`gamellized`) events that carry an
`against_player_id`, each as a `gamelle` match event with count 1; major
penalties (`lobbed`), goals, timeouts and custom events are not carried
over. -/
theorem finalize_copies_exactly_gamellized (s : LiveMatchSession)
    (mid : String) (now : Nat) :
    ∀ me : MatchEventRow,
      me ∈ (finalize_session s mid now).match_events ↔
        ∃ le ∈ s.events, le.undone_at = none ∧
          le.event_type = LiveEventType.GAMELLIZED ∧
          le.against_player_id = some me.against_player_id ∧
          me = { match_id := mid, event_type := EventType.GAMELLE,
                 against_player_id := me.against_player_id,
                 by_player_id := le.by_player_id, count := 1 } := by
  intro me
  show me ∈ s.events.filterMap _ ↔ _
  rw [List.mem_filterMap]
  constructor
  · rintro ⟨le, hle, hf⟩
    refine ⟨le, hle, ?_⟩
    rcases hu : le.undone_at with _ | u
    · rcases hap : le.against_player_id with _ | ap
      · rw [hu, hap] at hf; simp at hf
      · rw [hu, hap] at hf
        dsimp only at hf
        by_cases hty : le.event_type = LiveEventType.GAMELLIZED
        · rw [if_pos hty] at hf
          have hme := Option.some.inj hf
          have hap2 : ap = me.against_player_id := by
            rw [← hme]
          refine ⟨rfl, hty, ?_, ?_⟩
          · rw [hap2]
          · rw [← hme]
        · rw [if_neg hty] at hf; simp at hf
    · rw [hu] at hf; simp at hf
  · rintro ⟨le, hle, hu, hty, hap, hme⟩
    refine ⟨le, hle, ?_⟩
    rw [hu, hap]
    dsimp only
    rw [if_pos hty]
    rw [hme]

/-! ## C8 -/

theorem validate_live_match_players_eq_nil (mode : String)
    (players : List LiveMatchPlayerInput)
    (h : validate_live_match_players mode players = []) :
    players.length = (if mode = "1v1" then 2 else 4) ∧
    (players.filter (fun p => p.team = "A")).length =
      (if mode = "1v1" then 1 else 2) ∧
    (players.filter (fun p => p.team = "B")).length =
      (if mode = "1v1" then 1 else 2) ∧
    (mode = "2v2" →
      ((players.filter (fun p => p.team = "A")).map
        (fun p => p.position)).toFinset = ({"attack", "defense"} : Finset String) ∧
      ((players.filter (fun p => p.team = "B")).map
        (fun p => p.position)).toFinset = ({"attack", "defense"} : Finset String)) ∧
    (players.map (fun p => p.player_id)).Nodup := by
  unfold validate_live_match_players at h
  dsimp only at h
  by_cases h1 : players.length ≠ (if mode = "1v1" then 2 else 4)
  · rw [if_pos h1] at h; simp at h
  · rw [if_neg h1] at h
    push_neg at h1
    by_cases h2 : (players.filter (fun p => p.team = "A")).length ≠
        (if mode = "1v1" then 1 else 2) ∨
        (players.filter (fun p => p.team = "B")).length ≠
        (if mode = "1v1" then 1 else 2)
    · rw [if_pos h2] at h; simp at h
    · rw [if_neg h2] at h
      push_neg at h2
      rcases List.append_eq_nil.mp h with ⟨hpos, hdup⟩
      have hnodup : (players.map (fun p => p.player_id)).Nodup := by
        by_cases hn : ¬ (players.map (fun p => p.player_id)).Nodup
        · rw [if_pos hn] at hdup; simp at hdup
        · push_neg at hn; exact hn
      refine ⟨h1, h2.1, h2.2, ?_, hnodup⟩
      intro hm
      rw [if_pos hm] at hpos
      rcases List.append_eq_nil.mp hpos with ⟨hpa, hpb⟩
      constructor
      · by_cases ha : ((players.filter (fun p => p.team = "A")).map
            (fun p => p.position)).toFinset ≠ ({"attack", "defense"} : Finset String)
        · rw [if_pos ha] at hpa; simp at hpa
        · push_neg at ha; exact ha
      · by_cases hb : ((players.filter (fun p => p.team = "B")).map
            (fun p => p.position)).toFinset ≠ ({"attack", "defense"} : Finset String)
        · rw [if_pos hb] at hpb; simp at hpb
        · push_neg at hb; exact hb

/-- A well-formed 2v1 player list (two on side A, one on side B). -/
def twoVOnePlayers : List LiveMatchPlayerInput :=
  [{ player_id := "p1", team := "A", position := "attack" },
   { player_id := "p2", team := "A", position := "defense" },
   { player_id := "p3", team := "B", position := "attack" }]

/-- A 2v1 session-creation request. -/
def twoVOneCreate : LiveMatchCreate :=
  { season_id := "S1", mode := "2v1", players := twoVOnePlayers,
    generate_scorer_secret := false }

/-- C8 counterexample: the claim says mode `2v1` requires (and hence
accepts) 2 players on one side and 1 on the other, but live-session
creation rejects every `2v1` request: the pydantic schema only admits
`1v1` and `2v2`, and `validate_live_match_players` checks any non-`1v1`
mode as a 4-player mode, so even a well-formed 2+1 request is rejected
and nothing is persisted. -/
theorem create_2v1_rejected :
    twoVOneCreate.schemaValid = false ∧
    (create_live_match "L1" twoVOneCreate ["p1", "p2", "p3"] "tok" "sec" 0).1 =
      ApiOutcome.err "UNPROCESSABLE_ENTITY" "Invalid request body" ∧
    (create_live_match "L1" twoVOneCreate ["p1", "p2", "p3"] "tok" "sec" 0).2 = [] ∧
    validate_live_match_players "2v1" twoVOnePlayers =
      [("players", "2v1 requires exactly 4 players")] := by
  refine ⟨by decide, by decide, by decide, by decide⟩

/-- C8 (amended): live-session creation admits only modes `1v1` and
`2v2`; a request that passes accepts exactly 1 player per side for `1v1`
and exactly 2 per side with one attacker and one defender for `2v2`, with
no duplicate participants; every violation (a `2v1` mode included) is
rejected with an error and no session is persisted. -/
theorem create_live_match_validates_players (league_id : String)
    (data : LiveMatchCreate) (league_player_ids : List String)
    (tok sec : String) (now : Nat) :
    (∀ c m, (create_live_match league_id data league_player_ids tok sec now).1 =
        ApiOutcome.err c m →
      (create_live_match league_id data league_player_ids tok sec now).2 = []) ∧
    (∀ s, (create_live_match league_id data league_player_ids tok sec now).1 =
        ApiOutcome.ok s →
      (data.mode = "1v1" ∨ data.mode = "2v2") ∧
      (data.players.filter (fun p => p.team = "A")).length =
        (if data.mode = "1v1" then 1 else 2) ∧
      (data.players.filter (fun p => p.team = "B")).length =
        (if data.mode = "1v1" then 1 else 2) ∧
      (data.players.map (fun p => p.player_id)).Nodup ∧
      (data.mode = "2v2" →
        ((data.players.filter (fun p => p.team = "A")).map
          (fun p => p.position)).toFinset = ({"attack", "defense"} : Finset String) ∧
        ((data.players.filter (fun p => p.team = "B")).map
          (fun p => p.position)).toFinset = ({"attack", "defense"} : Finset String)) ∧
      (create_live_match league_id data league_player_ids tok sec now).2 = [s]) ∧
    (¬ (data.players.map (fun p => p.player_id)).Nodup →
      ∃ c m, (create_live_match league_id data league_player_ids tok sec now).1 =
        ApiOutcome.err c m) := by
  by_cases hv : data.schemaValid = true
  · by_cases hval : validate_live_match_players data.mode data.players = []
    · by_cases hpl : data.players.all
          (fun p => league_player_ids.contains p.player_id) = true
      · have hC : create_live_match league_id data league_player_ids tok sec now =
            (ApiOutcome.ok (create_live_match_session league_id data.season_id
              data tok sec now),
             [create_live_match_session league_id data.season_id data tok sec now]) := by
          unfold create_live_match
          rw [if_neg (by simp [hv]), if_neg (by simp [hval]),
            if_neg (not_not_intro hpl)]
        refine ⟨?_, ?_, ?_⟩
        · intro c m hc
          rw [hC] at hc
          simp at hc
        · intro s hs
          rw [hC] at hs
          obtain ⟨_, hca, hcb, hposs, hnd⟩ :=
            validate_live_match_players_eq_nil data.mode data.players hval
          have hmode : data.mode = "1v1" ∨ data.mode = "2v2" := by
            unfold LiveMatchCreate.schemaValid at hv
            rcases Bool.and_eq_true_iff.mp hv with ⟨hm, _⟩
            rcases Bool.or_eq_true_iff.mp hm with h | h
            · exact Or.inl (by simpa using h)
            · exact Or.inr (by simpa using h)
          refine ⟨hmode, hca, hcb, hnd, fun hm => hposs hm, ?_⟩
          rw [hC]
          simpa using (ApiOutcome.ok.inj hs)
        · intro hnd
          obtain ⟨_, _, _, _, hnd2⟩ :=
            validate_live_match_players_eq_nil data.mode data.players hval
          exact absurd hnd2 hnd
      · have hC : create_live_match league_id data league_player_ids tok sec now =
            (ApiOutcome.err "VALIDATION_ERROR" "One or more players not found in league",
             []) := by
          unfold create_live_match
          rw [if_neg (by simp [hv]), if_neg (by simp [hval]), if_pos hpl]
        refine ⟨fun c m _ => by rw [hC], fun s hs => ?_, fun _ => ?_⟩
        · rw [hC] at hs; simp at hs
        · exact ⟨_, _, by rw [hC]⟩
    · have hC : create_live_match league_id data league_player_ids tok sec now =
          (ApiOutcome.err "VALIDATION_ERROR" "Invalid players", []) := by
        unfold create_live_match
        rw [if_neg (by simp [hv]), if_pos (by simp [hval])]
      refine ⟨fun c m _ => by rw [hC], fun s hs => ?_, fun _ => ?_⟩
      · rw [hC] at hs; simp at hs
      · exact ⟨_, _, by rw [hC]⟩
  · have hC : create_live_match league_id data league_player_ids tok sec now =
        (ApiOutcome.err "UNPROCESSABLE_ENTITY" "Invalid request body", []) := by
      unfold create_live_match
      rw [if_pos (by simp [hv])]
    refine ⟨fun c m _ => by rw [hC], fun s hs => ?_, fun _ => ?_⟩
    · rw [hC] at hs; simp at hs
    · exact ⟨_, _, by rw [hC]⟩

/-- Witness for `create_live_match_validates_players`: a duplicate
participant in an otherwise well-formed 1v1 request is rejected. -/
theorem create_live_match_validates_players_witness :
    (¬ (([{ player_id := "p1", team := "A", position := "attack" },
         { player_id := "p1", team := "B", position := "attack" }] :
        List LiveMatchPlayerInput).map (fun p => p.player_id)).Nodup) ∧
    ∃ c m, (create_live_match "L1"
      { season_id := "S1", mode := "1v1",
        players := [{ player_id := "p1", team := "A", position := "attack" },
                    { player_id := "p1", team := "B", position := "attack" }],
        generate_scorer_secret := false }
      ["p1"] "tok" "sec" 0).1 = ApiOutcome.err c m :=
  ⟨by decide,
   (create_live_match_validates_players "L1"
     { season_id := "S1", mode := "1v1",
       players := [{ player_id := "p1", team := "A", position := "attack" },
                   { player_id := "p1", team := "B", position := "attack" }],
       generate_scorer_secret := false }
     ["p1"] "tok" "sec" 0).2.2 (by decide)⟩

/-! ## C10 -/

/-- A `lobbed` (penalty-major) event input for side B. -/
def lobbedBInput : LiveMatchEventInput :=
  { event_type := "lobbed", team := some "B", by_player_id := none,
    against_player_id := none, custom_type := none, elapsed_seconds := none }

/-- Five goals for A and two major penalties for B: ends 5 – (−6). -/
def tenPlusMarginOps : List SessionOp :=
  [.record goalAInput 0, .record goalAInput 1, .record goalAInput 2,
   .record goalAInput 3, .record goalAInput 4,
   .record lobbedBInput 5, .record lobbedBInput 6]

/-- C10 counterexample: the claim says the manual score override accepts
arbitrary integers, but the request schema bounds both scores to
`[-20, 20]`: a score of 21 is rejected and the session is unchanged. -/
theorem score_override_bounded :
    LiveMatchScoreUpdate.schemaValid { team_a_score := 21, team_b_score := 0 } = false ∧
    (update_live_match_score penaltyScenarioSession
      { team_a_score := 21, team_b_score := 0 } 3).1 =
      ApiOutcome.err "UNPROCESSABLE_ENTITY" "Invalid request body" ∧
    (update_live_match_score penaltyScenarioSession
      { team_a_score := 21, team_b_score := 0 } 3).2 = penaltyScenarioSession := by
  refine ⟨by decide, by decide, by decide⟩

/-- C10 (amended): `calculate_actual_score` ignores its `winner` argument
and applies no clamping — it returns exactly `0.5 + (scoreFor −
scoreAgainst)/20`, which leaves `[0, 1]` as soon as the margin exceeds 10
in magnitude.  Margins above 10 are reachable in finalized matches:
penalty events may push a side's score negative with no floor (five goals
for A plus two major penalties for B yields 5 – (−6), margin 11), and the
manual score override accepts any integers in `[-20, 20]` (margin up to
40). -/
theorem actual_score_is_unclamped_margin (w w2 : Bool) (sf sa : Int) :
    calculate_actual_score w sf sa = 1 / 2 + ((sf : ℚ) - (sa : ℚ)) / 20 ∧
    calculate_actual_score w sf sa = calculate_actual_score w2 sf sa ∧
    (10 < sf - sa → 1 < calculate_actual_score w sf sa) ∧
    (sf - sa < -10 → calculate_actual_score w sf sa < 0) ∧
    (runSessionOps freshSession tenPlusMarginOps).team_a_score = 5 ∧
    (runSessionOps freshSession tenPlusMarginOps).team_b_score = -6 ∧
    (finalize_session (runSessionOps freshSession tenPlusMarginOps)
      "mX" 9).match_row.team_a_score -
      (finalize_session (runSessionOps freshSession tenPlusMarginOps)
        "mX" 9).match_row.team_b_score = 11 ∧
    calculate_actual_score true 5 (-6) = 21 / 20 ∧ (1 : ℚ) < 21 / 20 ∧
    (update_live_match_score freshSession
      { team_a_score := 20, team_b_score := -20 } 1).1 =
      ApiOutcome.ok (20, -20) := by
  have hval : calculate_actual_score w sf sa =
      1 / 2 + ((sf : ℚ) - (sa : ℚ)) / 20 := by
    unfold calculate_actual_score
    ring
  refine ⟨hval, ?_, ?_, ?_, by decide, by decide, by decide, by norm_num
    [calculate_actual_score], by norm_num, by decide⟩
  · unfold calculate_actual_score
    ring
  · intro hgt
    have hq : (11 : ℚ) ≤ (sf : ℚ) - (sa : ℚ) := by
      have : (11 : Int) ≤ sf - sa := hgt
      exact_mod_cast (by push_cast; exact_mod_cast this : (11 : ℚ) ≤ ((sf - sa : Int) : ℚ))
    rw [hval]
    linarith
  · intro hlt
    have hq : (sf : ℚ) - (sa : ℚ) ≤ -11 := by
      have : sf - sa ≤ -11 := by omega
      exact_mod_cast (by push_cast; exact_mod_cast this : ((sf - sa : Int) : ℚ) ≤ -11)
    rw [hval]
    linarith

/-- Witness for `actual_score_is_unclamped_margin`: at margin 12 the
"actual score" exceeds 1. -/
theorem actual_score_is_unclamped_margin_witness :
    ((10 : Int) < 12 - 0) ∧ 1 < calculate_actual_score true 12 0 :=
  ⟨by decide, (actual_score_is_unclamped_margin true false 12 0).2.2.1 (by decide)⟩

/-! ## Characterization of the rating job's runs -/

/-- A side's average prior rating. -/
def jobTeamAvg (db : WorkerDB) (match_id team : String) (m : MatchRow) : ℚ :=
  jobTeamRatingSum db match_id team m /
    (((jobTeamPlayers db match_id team).length : ℚ))

theorem pyDivByLen_ok (total : ℚ) (len : Nat) (h : len ≠ 0) :
    pyDivByLen total len = .ok (total / (len : ℚ)) := by
  unfold pyDivByLen
  rw [if_neg h]

theorem pyDivByLen_err (total : ℚ) :
    pyDivByLen total 0 = .error PyExc.zeroDivision := rfl

theorem update_ratings_not_found (db : WorkerDB) (now retries : Nat)
    (mid : String) (hfind : db.matches.find? (fun x => x.id = mid) = none) :
    update_ratings_for_match db now retries mid = (.error "Match not found", db) := by
  unfold update_ratings_for_match update_ratings_body
  rw [hfind]
  rfl

theorem update_ratings_no_players (db : WorkerDB) (now retries : Nat)
    (mid : String) (m : MatchRow)
    (hfind : db.matches.find? (fun x => x.id = mid) = some m)
    (hvalid : m.status = MatchStatus.VALID)
    (hmp : jobMatchPlayers db mid = []) :
    update_ratings_for_match db now retries mid =
      (.error "No players in match", db) := by
  unfold update_ratings_for_match update_ratings_body
  rw [hfind]
  dsimp only
  rw [if_neg (not_not_intro hvalid), if_pos hmp]
  rfl

theorem update_ratings_skips_existing (db : WorkerDB) (now retries : Nat)
    (mid : String) (m : MatchRow)
    (hfind : db.matches.find? (fun x => x.id = mid) = some m)
    (hvalid : m.status = MatchStatus.VALID)
    (hmp : jobMatchPlayers db mid ≠ [])
    (hex : db.rating_snapshots.filter (fun s =>
      s.as_of_match_id = mid ∧ s.mode = m.mode) ≠ []) :
    update_ratings_for_match db now retries mid =
      (.skipped "Ratings already computed for this match", db) := by
  unfold update_ratings_for_match update_ratings_body
  rw [hfind]
  dsimp only
  rw [if_neg (not_not_intro hvalid), if_neg hmp, if_pos hex]
  rfl

theorem update_ratings_retry_empty_team (db : WorkerDB) (now retries : Nat)
    (mid : String) (m : MatchRow)
    (hfind : db.matches.find? (fun x => x.id = mid) = some m)
    (hvalid : m.status = MatchStatus.VALID)
    (hmp : jobMatchPlayers db mid ≠ [])
    (hex : db.rating_snapshots.filter (fun s =>
      s.as_of_match_id = mid ∧ s.mode = m.mode) = [])
    (hAB : jobTeamPlayers db mid "A" = [] ∨ jobTeamPlayers db mid "B" = []) :
    update_ratings_for_match db now retries mid = (.retry (2 ^ retries), db) := by
  unfold update_ratings_for_match update_ratings_body
  rw [hfind]
  dsimp only
  rw [if_neg (not_not_intro hvalid), if_neg hmp, if_neg (not_not_intro hex)]
  rcases hAB with hA | hB
  · rw [hA]
    rfl
  · by_cases hA : (jobTeamPlayers db mid "A").length = 0
    · rw [show jobTeamPlayers db mid "A" = [] from List.length_eq_zero.mp hA]
      rfl
    · rw [pyDivByLen_ok _ _ hA, hB]
      rfl

theorem update_ratings_success (db : WorkerDB) (now retries : Nat)
    (mid : String) (m : MatchRow)
    (hfind : db.matches.find? (fun x => x.id = mid) = some m)
    (hvalid : m.status = MatchStatus.VALID)
    (hmp : jobMatchPlayers db mid ≠ [])
    (hex : db.rating_snapshots.filter (fun s =>
      s.as_of_match_id = mid ∧ s.mode = m.mode) = [])
    (hA : jobTeamPlayers db mid "A" ≠ [])
    (hB : jobTeamPlayers db mid "B" ≠ []) :
    update_ratings_for_match db now retries mid =
      (.ok "ratings updated",
       { db with
          rating_snapshots := db.rating_snapshots ++
            jobSnapshots db now mid m (jobTeamAvg db mid "A" m)
              (jobTeamAvg db mid "B" m)
          player_achievements := db.player_achievements ++
            jobAchievements db mid m (jobTeamAvg db mid "A" m)
              (jobTeamAvg db mid "B" m) }) := by
  unfold update_ratings_for_match update_ratings_body
  rw [hfind]
  dsimp only
  rw [if_neg (not_not_intro hvalid), if_neg hmp, if_neg (not_not_intro hex),
    pyDivByLen_ok _ _ (fun h => hA (List.length_eq_zero.mp h)),
    pyDivByLen_ok _ _ (fun h => hB (List.length_eq_zero.mp h))]
  rfl

/-! ## C9 -/

/-- A valid match whose only participant is on side B (side A empty). -/
def soloTeamMatch : MatchRow :=
  { id := "mS", league_id := "L1", season_id := "S1", mode := "1v1",
    team_a_score := 10, team_b_score := 0, played_at := 1, created_at := 1,
    status := "valid" }

/-- Database holding `soloTeamMatch` with one participant on side B. -/
def soloTeamDB : WorkerDB :=
  { «matches» := [soloTeamMatch],
    match_players := [{ match_id := "mS", player_id := "p9", team := "B",
                        position := "attack", is_captain := false }],
    match_events := [], rating_snapshots := [], player_achievements := [],
    stats_snapshots := [] }

/-- C9 counterexample: the claim says a match with a side that has no
players is skipped (not retried), but the job divides by the side's
player count: with side A empty, `ZeroDivisionError` is raised and the
task retries (countdown `2 ** retries`) instead of skipping. -/
theorem missing_side_retries_not_skips :
    jobMatchPlayers soloTeamDB "mS" ≠ [] ∧
    jobTeamPlayers soloTeamDB "mS" "A" = [] ∧
    update_ratings_for_match soloTeamDB 3 2 "mS" = (.retry 4, soloTeamDB) ∧
    (∀ r, JobResult.retry 4 ≠ JobResult.skipped r) ∧
    (∀ r, JobResult.retry 4 ≠ JobResult.error r) := by
  refine ⟨by decide, by decide, ?_, fun r => by simp, fun r => by simp⟩
  exact update_ratings_retry_empty_team soloTeamDB 3 2 "mS" soloTeamMatch
    (by decide) rfl (by decide) (by decide) (Or.inl (by decide))

/-- C9 (amended): a match with no participants is returned as an error
without retrying and without writing; a match with an empty side raises
`ZeroDivisionError`, which the task's except-clause converts into a retry
with exponential backoff (`countdown = 2 ** retries`) and no write; the
attempt count is bounded by `max_retries = 5`. -/
theorem rating_job_failure_semantics (db : WorkerDB) (now retries : Nat)
    (mid : String) (m : MatchRow)
    (hfind : db.matches.find? (fun x => x.id = mid) = some m)
    (hvalid : m.status = MatchStatus.VALID) :
    (jobMatchPlayers db mid = [] →
      update_ratings_for_match db now retries mid =
        (.error "No players in match", db)) ∧
    (jobMatchPlayers db mid ≠ [] →
      db.rating_snapshots.filter (fun s =>
        s.as_of_match_id = mid ∧ s.mode = m.mode) = [] →
      (jobTeamPlayers db mid "A" = [] ∨ jobTeamPlayers db mid "B" = []) →
      update_ratings_for_match db now retries mid =
        (.retry (2 ^ retries), db)) ∧
    update_ratings_max_retries = 5 := by
  refine ⟨?_, ?_, rfl⟩
  · intro hmp
    exact update_ratings_no_players db now retries mid m hfind hvalid hmp
  · intro hmp hex hAB
    exact update_ratings_retry_empty_team db now retries mid m hfind hvalid
      hmp hex hAB

/-- Witness for `rating_job_failure_semantics`. -/
theorem rating_job_failure_semantics_witness :
    (soloTeamDB.matches.find? (fun x => x.id = "mS") = some soloTeamMatch ∧
     soloTeamMatch.status = MatchStatus.VALID ∧
     jobMatchPlayers soloTeamDB "mS" ≠ [] ∧
     soloTeamDB.rating_snapshots.filter (fun s =>
       s.as_of_match_id = "mS" ∧ s.mode = soloTeamMatch.mode) = [] ∧
     (jobTeamPlayers soloTeamDB "mS" "A" = [] ∨
      jobTeamPlayers soloTeamDB "mS" "B" = [])) ∧
    update_ratings_for_match soloTeamDB 7 1 "mS" = (.retry 2, soloTeamDB) :=
  ⟨⟨by decide, rfl, by decide, by decide, Or.inl (by decide)⟩,
   (rating_job_failure_semantics soloTeamDB 7 1 "mS" soloTeamMatch
     (by decide) rfl).2.1 (by decide) (by decide) (Or.inl (by decide))⟩

/-! ## C4 -/

theorem jobSnapshots_pred (db : WorkerDB) (now : Nat) (mid : String)
    (m : MatchRow) (avgA avgB : ℚ) :
    ∀ s ∈ jobSnapshots db now mid m avgA avgB,
      s.as_of_match_id = mid ∧ s.mode = m.mode := by
  intro s hs
  unfold jobSnapshots at hs
  rcases List.mem_append.mp hs with h | h <;>
    · obtain ⟨mp, _, hmp⟩ := List.mem_map.mp h
      rw [← hmp]
      exact ⟨rfl, rfl⟩

theorem jobSnapshots_map_player_id (db : WorkerDB) (now : Nat) (mid : String)
    (m : MatchRow) (avgA avgB : ℚ) :
    (jobSnapshots db now mid m avgA avgB).map (fun s => s.player_id) =
      (jobTeamPlayers db mid "A").map (fun mp => mp.player_id) ++
      (jobTeamPlayers db mid "B").map (fun mp => mp.player_id) := by
  unfold jobSnapshots
  rw [List.map_append, List.map_map, List.map_map]
  rfl

theorem jobTeamPlayers_append_perm (db : WorkerDB) (mid : String)
    (hteams : ∀ mp ∈ jobMatchPlayers db mid, mp.team = "A" ∨ mp.team = "B") :
    (jobTeamPlayers db mid "A" ++ jobTeamPlayers db mid "B").Perm
      (jobMatchPlayers db mid) := by
  have hB : jobTeamPlayers db mid "B" =
      (jobMatchPlayers db mid).filter (fun mp => !(decide (mp.team = "A"))) := by
    unfold jobTeamPlayers
    apply List.filter_congr
    intro mp hmp
    rcases hteams mp hmp with h | h <;> simp [h]
  rw [hB]
  exact List.filter_append_perm (fun mp => decide (mp.team = "A"))
    (jobMatchPlayers db mid)

/-- C4: the rating job is idempotent per (match, mode): as soon as a
snapshot for the match and mode exists, the job is a skip that writes
nothing, so delivering the same match-id job N ≥ 1 times leaves exactly
one rating snapshot per participant for that match (the snapshot
player-ids are a permutation of the distinct participant ids). -/
theorem rating_job_idempotent_per_match (db : WorkerDB) (times : Nat → Nat)
    (mid : String) (m : MatchRow)
    (hfind : db.matches.find? (fun x => x.id = mid) = some m)
    (hvalid : m.status = MatchStatus.VALID)
    (hex : db.rating_snapshots.filter (fun s =>
      s.as_of_match_id = mid ∧ s.mode = m.mode) = [])
    (hA : jobTeamPlayers db mid "A" ≠ [])
    (hB : jobTeamPlayers db mid "B" ≠ [])
    (hteams : ∀ mp ∈ jobMatchPlayers db mid, mp.team = "A" ∨ mp.team = "B")
    (hnd : ((jobMatchPlayers db mid).map (fun mp => mp.player_id)).Nodup) :
    (∀ (db2 : WorkerDB) (now2 r2 : Nat),
      db2.matches.find? (fun x => x.id = mid) = some m →
      jobMatchPlayers db2 mid ≠ [] →
      db2.rating_snapshots.filter (fun s =>
        s.as_of_match_id = mid ∧ s.mode = m.mode) ≠ [] →
      update_ratings_for_match db2 now2 r2 mid =
        (.skipped "Ratings already computed for this match", db2)) ∧
    (∀ N, 1 ≤ N →
      dispatchRatingJobs db mid times N = dispatchRatingJobs db mid times 1) ∧
    (((dispatchRatingJobs db mid times 1).rating_snapshots.filter (fun s =>
        s.as_of_match_id = mid ∧ s.mode = m.mode)).map
      (fun s => s.player_id)).Perm
      ((jobMatchPlayers db mid).map (fun mp => mp.player_id)) ∧
    ((jobMatchPlayers db mid).map (fun mp => mp.player_id)).Nodup := by
  have hmp : jobMatchPlayers db mid ≠ [] := by
    intro h
    exact hA (by unfold jobTeamPlayers; rw [h]; rfl)
  have hdb1 : dispatchRatingJobs db mid times 1 =
      { db with
          rating_snapshots := db.rating_snapshots ++
            jobSnapshots db (times 0) mid m (jobTeamAvg db mid "A" m)
              (jobTeamAvg db mid "B" m)
          player_achievements := db.player_achievements ++
            jobAchievements db mid m (jobTeamAvg db mid "A" m)
              (jobTeamAvg db mid "B" m) } := by
    show (update_ratings_for_match (dispatchRatingJobs db mid times 0)
      (times 0) 0 mid).2 = _
    rw [show dispatchRatingJobs db mid times 0 = db from rfl,
      update_ratings_success db (times 0) 0 mid m hfind hvalid hmp hex hA hB]
  have hS : ∀ s ∈ jobSnapshots db (times 0) mid m (jobTeamAvg db mid "A" m)
      (jobTeamAvg db mid "B" m), s.as_of_match_id = mid ∧ s.mode = m.mode :=
    jobSnapshots_pred db (times 0) mid m _ _
  have hfilter1 : (dispatchRatingJobs db mid times 1).rating_snapshots.filter
      (fun s => s.as_of_match_id = mid ∧ s.mode = m.mode) =
      jobSnapshots db (times 0) mid m (jobTeamAvg db mid "A" m)
        (jobTeamAvg db mid "B" m) := by
    rw [hdb1]
    show (db.rating_snapshots ++ _).filter _ = _
    rw [List.filter_append, hex, List.nil_append]
    apply List.filter_eq_self.mpr
    intro s hs
    exact decide_eq_true (hS s hs)
  have hSne : jobSnapshots db (times 0) mid m (jobTeamAvg db mid "A" m)
      (jobTeamAvg db mid "B" m) ≠ [] := by
    unfold jobSnapshots
    intro h
    rcases List.append_eq_nil.mp h with ⟨h1, _⟩
    exact hA (List.map_eq_nil_iff.mp h1)
  have hskip : ∀ (db2 : WorkerDB) (now2 r2 : Nat),
      db2.matches.find? (fun x => x.id = mid) = some m →
      jobMatchPlayers db2 mid ≠ [] →
      db2.rating_snapshots.filter (fun s =>
        s.as_of_match_id = mid ∧ s.mode = m.mode) ≠ [] →
      update_ratings_for_match db2 now2 r2 mid =
        (.skipped "Ratings already computed for this match", db2) := by
    intro db2 now2 r2 hf2 hmp2 hex2
    exact update_ratings_skips_existing db2 now2 r2 mid m hf2 hvalid hmp2 hex2
  refine ⟨hskip, ?_, ?_, hnd⟩
  · intro N hN
    induction N with
    | zero => omega
    | succ n ih =>
      by_cases hn : 1 ≤ n
      · have hstep : dispatchRatingJobs db mid times (n + 1) =
            (update_ratings_for_match (dispatchRatingJobs db mid times n)
              (times n) 0 mid).2 := rfl
        rw [hstep, ih hn]
        have hf1 : (dispatchRatingJobs db mid times 1).matches.find?
            (fun x => x.id = mid) = some m := by
          rw [hdb1]; exact hfind
        have hmp1 : jobMatchPlayers (dispatchRatingJobs db mid times 1) mid ≠ [] := by
          rw [hdb1]; exact hmp
        have hex1 : (dispatchRatingJobs db mid times 1).rating_snapshots.filter
            (fun s => s.as_of_match_id = mid ∧ s.mode = m.mode) ≠ [] := by
          rw [hfilter1]; exact hSne
        rw [hskip (dispatchRatingJobs db mid times 1) (times n) 0 hf1 hmp1 hex1]
      · have : n = 0 := by omega
        rw [this]
  · rw [hfilter1, jobSnapshots_map_player_id]
    have := (jobTeamPlayers_append_perm db mid hteams).map (fun mp => mp.player_id)
    rw [List.map_append] at this
    exact this

/-- A well-formed valid 1v1 match with one player per side and no prior
snapshots. -/
def pairMatch : MatchRow :=
  { id := "mP", league_id := "L1", season_id := "S1", mode := "1v1",
    team_a_score := 10, team_b_score := 7, played_at := 3, created_at := 3,
    status := "valid" }

/-- Database holding `pairMatch`. -/
def pairDB : WorkerDB :=
  { «matches» := [pairMatch],
    match_players := [{ match_id := "mP", player_id := "p1", team := "A",
                        position := "attack", is_captain := false },
                      { match_id := "mP", player_id := "p2", team := "B",
                        position := "attack", is_captain := false }],
    match_events := [], rating_snapshots := [], player_achievements := [],
    stats_snapshots := [] }

/-- Witness for `rating_job_idempotent_per_match`: the third delivery of
the same job changes nothing relative to the first. -/
theorem rating_job_idempotent_per_match_witness :
    (pairDB.matches.find? (fun x => x.id = "mP") = some pairMatch ∧
     pairMatch.status = MatchStatus.VALID ∧
     pairDB.rating_snapshots.filter (fun s =>
       s.as_of_match_id = "mP" ∧ s.mode = pairMatch.mode) = [] ∧
     jobTeamPlayers pairDB "mP" "A" ≠ [] ∧
     jobTeamPlayers pairDB "mP" "B" ≠ [] ∧
     (∀ mp ∈ jobMatchPlayers pairDB "mP", mp.team = "A" ∨ mp.team = "B") ∧
     ((jobMatchPlayers pairDB "mP").map (fun mp => mp.player_id)).Nodup) ∧
    dispatchRatingJobs pairDB "mP" (fun k => k) 3 =
      dispatchRatingJobs pairDB "mP" (fun k => k) 1 :=
  ⟨⟨by decide, rfl, by decide, by decide, by decide, by decide, by decide⟩,
   (rating_job_idempotent_per_match pairDB (fun k => k) "mP" pairMatch
     (by decide) rfl (by decide) (by decide) (by decide) (by decide)
     (by decide)).2.1 3 (by decide)⟩

/-! ## C3 -/

/-- C3 (amended): for a well-formed valid match the job returns ok and
persists, for every participant, a snapshot tagged with the match id
whose rating is `round(old + 32 × (actual − expected))`, where `old` is
the participant's most recent snapshot rating for the league and mode
(default 1200), `actual = 0.5 + (scoreFor − scoreAgainst)/10 × 0.5`, and
`expected` is computed from the participant's **own** prior rating
against the opposing side's average:
`E_p = 1 / (1 + 10 ^ ((avg_opponent − rating_p)/400))` (not from the
side-average as the spec states). -/
theorem rating_update_per_player_formula (db : WorkerDB) (now retries : Nat)
    (mid : String) (m : MatchRow)
    (hfind : db.matches.find? (fun x => x.id = mid) = some m)
    (hvalid : m.status = MatchStatus.VALID)
    (hex : db.rating_snapshots.filter (fun s =>
      s.as_of_match_id = mid ∧ s.mode = m.mode) = [])
    (hA : jobTeamPlayers db mid "A" ≠ [])
    (hB : jobTeamPlayers db mid "B" ≠ []) :
    (update_ratings_for_match db now retries mid).1 = .ok "ratings updated" ∧
    (∀ mp ∈ jobTeamPlayers db mid "A",
      ({ league_id := m.league_id, season_id := m.season_id,
         player_id := mp.player_id, mode := m.mode,
         rating := calculate_new_rating
           (prior_rating db.rating_snapshots mp.player_id m.league_id m.mode)
           (calculate_expected_score
             ((prior_rating db.rating_snapshots mp.player_id m.league_id m.mode : ℚ))
             (jobTeamAvg db mid "B" m))
           (calculate_actual_score (decide (m.team_b_score < m.team_a_score))
             m.team_a_score m.team_b_score),
         as_of_match_id := mid, computed_at := now } : RatingSnapshotRow) ∈
        (update_ratings_for_match db now retries mid).2.rating_snapshots) ∧
    (∀ mp ∈ jobTeamPlayers db mid "B",
      ({ league_id := m.league_id, season_id := m.season_id,
         player_id := mp.player_id, mode := m.mode,
         rating := calculate_new_rating
           (prior_rating db.rating_snapshots mp.player_id m.league_id m.mode)
           (calculate_expected_score
             ((prior_rating db.rating_snapshots mp.player_id m.league_id m.mode : ℚ))
             (jobTeamAvg db mid "A" m))
           (calculate_actual_score (!(decide (m.team_b_score < m.team_a_score)))
             m.team_b_score m.team_a_score),
         as_of_match_id := mid, computed_at := now } : RatingSnapshotRow) ∈
        (update_ratings_for_match db now retries mid).2.rating_snapshots) := by
  have hmp : jobMatchPlayers db mid ≠ [] := by
    intro h
    exact hA (by unfold jobTeamPlayers; rw [h]; rfl)
  rw [update_ratings_success db now retries mid m hfind hvalid hmp hex hA hB]
  refine ⟨rfl, ?_, ?_⟩
  · intro mp hmp2
    show _ ∈ db.rating_snapshots ++ _
    apply List.mem_append_right
    unfold jobSnapshots
    apply List.mem_append_left
    exact List.mem_map.mpr ⟨mp, hmp2, rfl⟩
  · intro mp hmp2
    show _ ∈ db.rating_snapshots ++ _
    apply List.mem_append_right
    unfold jobSnapshots
    apply List.mem_append_right
    exact List.mem_map.mpr ⟨mp, hmp2, rfl⟩

/-- Modelled from the spec: the side-level expected score the spec
describes, `E_side = 1 / (1 + 10 ^ ((avg_opponent − avg_side)/400))`,
computed from the two side averages (unlike the source, which uses each
participant's own rating in place of `avg_side`). -/
noncomputable def spec_expected_side (avg_side avg_opponent : ℚ) : ℝ :=
  1 / (1 + (10 : ℝ) ^ (((avg_opponent : ℝ) - (avg_side : ℝ)) / 400))

/-- A valid 2v2 match 10–0 whose side A pairs an 800-rated and a
1600-rated player (side average 1200) against two 1200-default
opponents. -/
def c3Match : MatchRow :=
  { id := "m1", league_id := "L1", season_id := "S1", mode := "2v2",
    team_a_score := 10, team_b_score := 0, played_at := 2, created_at := 2,
    status := "valid" }

/-- Database holding `c3Match` with prior snapshots giving player A1
rating 800 and player A2 rating 1600 (B1 and B2 default to 1200). -/
def c3DB : WorkerDB :=
  { «matches» := [c3Match],
    match_players := [{ match_id := "m1", player_id := "A1", team := "A",
                        position := "attack", is_captain := false },
                      { match_id := "m1", player_id := "A2", team := "A",
                        position := "defense", is_captain := false },
                      { match_id := "m1", player_id := "B1", team := "B",
                        position := "attack", is_captain := false },
                      { match_id := "m1", player_id := "B2", team := "B",
                        position := "defense", is_captain := false }],
    match_events := [],
    rating_snapshots := [{ league_id := "L1", season_id := "S1",
                           player_id := "A1", mode := "2v2", rating := 800,
                           as_of_match_id := "m0", computed_at := 1 },
                         { league_id := "L1", season_id := "S1",
                           player_id := "A2", mode := "2v2", rating := 1600,
                           as_of_match_id := "m0", computed_at := 1 }],
    player_achievements := [], stats_snapshots := [] }

theorem c3_expected_A1 : calculate_expected_score 800 1200 = 1 / 11 := by
  unfold calculate_expected_score
  rw [show ((((1200 : ℚ)) : ℝ) - (((800 : ℚ)) : ℝ)) / 400 = 1 by norm_num,
    Real.rpow_one]
  norm_num

theorem c3_actual_ten_zero (w : Bool) : calculate_actual_score w 10 0 = 1 := by
  unfold calculate_actual_score
  norm_num

theorem c3_roundPy_code : roundPy ((9120 : ℝ) / 11) = 829 := by
  have hfloor : ⌊(9120 : ℝ) / 11⌋ = 829 := by
    rw [Int.floor_eq_iff] <;> norm_num
  unfold roundPy
  rw [hfloor, if_pos (by norm_num)]

theorem c3_new_rating_code :
    calculate_new_rating 800 (1 / 11 : ℝ) ((1 : ℚ)) = 829 := by
  unfold calculate_new_rating
  rw [show ((800 : Int) : ℝ) + ((K_FACTOR : Int) : ℝ) *
      ((((1 : ℚ)) : ℝ) - 1 / 11) = (9120 : ℝ) / 11 by norm_num [K_FACTOR]]
  exact c3_roundPy_code

theorem c3_spec_expected : spec_expected_side 1200 1200 = 1 / 2 := by
  unfold spec_expected_side
  rw [show ((((1200 : ℚ)) : ℝ) - (((1200 : ℚ)) : ℝ)) / 400 = 0 by norm_num,
    Real.rpow_zero]
  norm_num

theorem c3_new_rating_spec :
    calculate_new_rating 800 (spec_expected_side 1200 1200)
      (calculate_actual_score true 10 0) = 816 := by
  rw [c3_spec_expected, c3_actual_ten_zero]
  unfold calculate_new_rating
  rw [show ((800 : Int) : ℝ) + ((K_FACTOR : Int) : ℝ) *
      ((((1 : ℚ)) : ℝ) - 1 / 2) = (816 : ℝ) by norm_num [K_FACTOR]]
  unfold roundPy
  rw [show ⌊(816 : ℝ)⌋ = 816 by norm_num, if_pos (by norm_num)]

/-- C3 counterexample: on `c3DB` the code persists rating 829 for player
A1 (expected score from A1's own 800 rating against the opposing average
1200: `1/(1+10^1) = 1/11`), while the spec's side-average formula
(`E_side = 1/2` from averages 1200 vs 1200) yields 816. -/
theorem side_average_expected_score_refuted :
    ((update_ratings_for_match c3DB 5 0 "m1").2.rating_snapshots.filter
      (fun s => s.player_id = "A1" ∧ s.as_of_match_id = "m1")).map
      (fun s => s.rating) = [829] ∧
    calculate_new_rating 800 (spec_expected_side 1200 1200)
      (calculate_actual_score true 10 0) = 816 ∧
    (829 : Int) ≠ 816 := by
  refine ⟨?_, c3_new_rating_spec, by decide⟩
  have hTA : jobTeamPlayers c3DB "m1" "A" =
      [{ match_id := "m1", player_id := "A1", team := "A",
         position := "attack", is_captain := false },
       { match_id := "m1", player_id := "A2", team := "A",
         position := "defense", is_captain := false }] := by decide
  have hTB : jobTeamPlayers c3DB "m1" "B" =
      [{ match_id := "m1", player_id := "B1", team := "B",
         position := "attack", is_captain := false },
       { match_id := "m1", player_id := "B2", team := "B",
         position := "defense", is_captain := false }] := by decide
  have hprA1 : prior_rating c3DB.rating_snapshots "A1" "L1" "2v2" = 800 := by
    decide
  have havgB : jobTeamAvg c3DB "m1" "B" c3Match = 1200 := by
    unfold jobTeamAvg jobTeamRatingSum
    rw [hTB]
    simp only [List.map_cons, List.map_nil, List.length_cons, List.length_nil]
    rw [show prior_rating c3DB.rating_snapshots "B1" c3Match.league_id
        c3Match.mode = 1200 from by decide,
      show prior_rating c3DB.rating_snapshots "B2" c3Match.league_id
        c3Match.mode = 1200 from by decide]
    norm_num
  rw [update_ratings_success c3DB 5 0 "m1" c3Match (by decide) rfl (by decide)
    (by decide) (by decide) (by decide)]
  show ((c3DB.rating_snapshots ++ _).filter _).map _ = _
  rw [List.filter_append, List.map_append,
    show c3DB.rating_snapshots.filter (fun s =>
      decide (s.player_id = "A1" ∧ s.as_of_match_id = "m1")) = [] from by decide]
  unfold jobSnapshots
  rw [hTA, hTB]
  simp only [List.map_cons, List.map_nil, List.nil_append, List.filter_cons,
    List.filter_nil, List.append_nil]
  norm_num
  refine ⟨?_, by decide, by decide, by decide⟩
  rw [show c3Match.league_id = "L1" from rfl, show c3Match.mode = "2v2" from rfl,
    hprA1, havgB]
  rw [show c3Match.team_a_score = 10 from rfl,
    show c3Match.team_b_score = 0 from rfl]
  rw [show ((800 : Int) : ℚ) = (800 : ℚ) from by norm_num, c3_expected_A1]
  rw [show (decide ((0 : Int) < 10)) = true from by decide, c3_actual_ten_zero]
  exact c3_new_rating_code

/-- Witness for `rating_update_per_player_formula`. -/
theorem rating_update_per_player_formula_witness :
    (c3DB.matches.find? (fun x => x.id = "m1") = some c3Match ∧
     c3Match.status = MatchStatus.VALID ∧
     c3DB.rating_snapshots.filter (fun s =>
       s.as_of_match_id = "m1" ∧ s.mode = c3Match.mode) = [] ∧
     jobTeamPlayers c3DB "m1" "A" ≠ [] ∧
     jobTeamPlayers c3DB "m1" "B" ≠ []) ∧
    (update_ratings_for_match c3DB 5 0 "m1").1 = .ok "ratings updated" :=
  ⟨⟨by decide, rfl, by decide, by decide, by decide⟩,
   (rating_update_per_player_formula c3DB 5 0 "m1" c3Match (by decide) rfl
     (by decide) (by decide) (by decide)).1⟩

/-! ## C5 -/

/-- Sorting by a key that is duplicate-free determines the result
uniquely: any two sorted permutations agree. -/
theorem insertionSort_key_nodup_unique (l1 l2 : List MatchRow)
    (hperm : l1.Perm l2) (hnd : (l1.map (fun m => m.id)).Nodup) :
    l1.insertionSort (fun a b => a.id ≤ b.id) =
      l2.insertionSort (fun a b => a.id ≤ b.id) := by
  haveI : IsTotal MatchRow (fun a b => a.id ≤ b.id) :=
    ⟨fun a b => le_total a.id b.id⟩
  haveI : IsTrans MatchRow (fun a b => a.id ≤ b.id) :=
    ⟨fun a b c hab hbc => le_trans hab hbc⟩
  haveI : IsAntisymm MatchRow (fun a b => a.id < b.id) :=
    ⟨fun a b hab hba => absurd hba (not_lt_of_gt hab)⟩
  have hs1 := List.sorted_insertionSort (fun a b : MatchRow => a.id ≤ b.id) l1
  have hs2 := List.sorted_insertionSort (fun a b : MatchRow => a.id ≤ b.id) l2
  have hp1 := List.perm_insertionSort (fun a b : MatchRow => a.id ≤ b.id) l1
  have hp2 := List.perm_insertionSort (fun a b : MatchRow => a.id ≤ b.id) l2
  have hps : (l1.insertionSort (fun a b => a.id ≤ b.id)).Perm
      (l2.insertionSort (fun a b => a.id ≤ b.id)) :=
    (hp1.trans hperm).trans hp2.symm
  have hstrict : ∀ (l : List MatchRow),
      List.Sorted (fun a b : MatchRow => a.id ≤ b.id) l →
      (l.map (fun m => m.id)).Nodup →
      List.Sorted (fun a b : MatchRow => a.id < b.id) l := by
    intro l hs hn
    have hne : l.Pairwise (fun a b => a.id ≠ b.id) :=
      List.pairwise_map.mp hn
    exact (hs.and hne).imp (fun h => lt_of_le_of_ne h.1 h.2)
  have hnd1 : ((l1.insertionSort (fun a b => a.id ≤ b.id)).map
      (fun m => m.id)).Nodup :=
    (hp1.map (fun m => m.id)).nodup_iff.mpr hnd
  have hnd2 : ((l2.insertionSort (fun a b => a.id ≤ b.id)).map
      (fun m => m.id)).Nodup := by
    refine (hp2.map (fun m => m.id)).nodup_iff.mpr ?_
    exact ((hperm.map (fun m => m.id)).nodup_iff).mp hnd
  exact List.eq_of_perm_of_sorted hps
    (hstrict _ hs1 hnd1) (hstrict _ hs2 hnd2)

/-- The source hash is a function of the match multiset alone (given
duplicate-free match ids, as the primary key guarantees): permuting the
load order leaves the hash unchanged. -/
theorem compute_source_hash_perm (l1 l2 : List MatchRow) (hperm : l1.Perm l2)
    (hnd : (l1.map (fun m => m.id)).Nodup) :
    compute_source_hash l1 = compute_source_hash l2 := by
  unfold compute_source_hash
  rw [insertionSort_key_nodup_unique l1 l2 hperm hnd]

theorem recompute_preserves_matches
    (fL fS fM : WorkerDB → String → String → List MatchRow → String)
    (db : WorkerDB) (now : Nat) (lg sn : String) :
    (recompute_league_stats fL fS fM db now lg sn).2.matches = db.matches := by
  unfold recompute_league_stats
  dsimp only
  split_ifs <;> rfl

/-- C5: the stats recomputation is deterministic and idempotent through
its source hash: the hash is a function of the (id, created_at) pairs
sorted by match id — invariant under load order for duplicate-free ids —
and a second run over an unchanged match set computes the same hash,
finds a stored snapshot carrying it, and performs no write (the state is
unchanged and the run reports the "Stats unchanged" skip). -/
theorem stats_recompute_second_run_noop
    (fL fS fM : WorkerDB → String → String → List MatchRow → String)
    (db : WorkerDB) (now1 now2 : Nat) (lg sn : String)
    (hne : db.matches.filter (fun m => m.league_id = lg ∧ m.season_id = sn ∧
      m.status = MatchStatus.VALID) ≠ []) :
    (recompute_league_stats fL fS fM
        (recompute_league_stats fL fS fM db now1 lg sn).2 now2 lg sn).2 =
      (recompute_league_stats fL fS fM db now1 lg sn).2 ∧
    (recompute_league_stats fL fS fM
        (recompute_league_stats fL fS fM db now1 lg sn).2 now2 lg sn).1 =
      .skipped "Stats unchanged" ∧
    (∀ l1 l2 : List MatchRow, l1.Perm l2 →
      (l1.map (fun m => m.id)).Nodup →
      compute_source_hash l1 = compute_source_hash l2) := by
  have hmatches1 : (recompute_league_stats fL fS fM db now1 lg sn).2.matches =
      db.matches := recompute_preserves_matches fL fS fM db now1 lg sn
  have hvalid1 : statsValidMatches
      (recompute_league_stats fL fS fM db now1 lg sn).2 lg sn =
      statsValidMatches db lg sn := by
    unfold statsValidMatches
    rw [hmatches1]
  have hsne : statsValidMatches db lg sn ≠ [] := by
    intro h
    apply hne
    have hp := List.perm_insertionSort
      (fun a b : MatchRow => a.played_at ≤ b.played_at)
      (db.matches.filter (fun m => m.league_id = lg ∧ m.season_id = sn ∧
        m.status = MatchStatus.VALID))
    unfold statsValidMatches at h
    rw [h] at hp
    exact hp.symm.eq_nil
  -- the snapshot store of the first run's result contains the hash
  have hhas : ∃ s ∈ (recompute_league_stats fL fS fM db now1 lg sn).2.stats_snapshots,
      s.league_id = lg ∧ s.season_id = sn ∧
        s.source_hash = compute_source_hash (statsValidMatches db lg sn) := by
    unfold recompute_league_stats
    dsimp only
    rw [if_neg hsne]
    by_cases hhit : db.stats_snapshots.any (fun s =>
        s.league_id = lg ∧ s.season_id = sn ∧
          s.source_hash = compute_source_hash (statsValidMatches db lg sn)) = true
    · rw [if_pos hhit]
      obtain ⟨s, hs, hp⟩ := List.any_eq_true.mp hhit
      exact ⟨s, hs, of_decide_eq_true hp⟩
    · rw [if_neg hhit]
      refine ⟨(⟨lg, sn, "leaderboards",
        fL db lg sn (statsValidMatches db lg sn), now1,
        compute_source_hash (statsValidMatches db lg sn)⟩ : StatsSnapshotRow),
        ?_, rfl, rfl, rfl⟩
      exact List.mem_append_right _ (List.mem_cons_self _ _)
  obtain ⟨db1, hdb1⟩ : ∃ x, (recompute_league_stats fL fS fM db now1 lg sn).2 = x :=
    ⟨_, rfl⟩
  rw [hdb1] at hvalid1 hhas ⊢
  have hskip : recompute_league_stats fL fS fM db1 now2 lg sn =
      (.skipped "Stats unchanged", db1) := by
    unfold recompute_league_stats
    dsimp only
    rw [hvalid1, if_neg hsne]
    rw [if_pos ?hcond]
    case hcond =>
      apply List.any_eq_true.mpr
      obtain ⟨s, hs, hp⟩ := hhas
      exact ⟨s, hs, decide_eq_true hp⟩
  exact ⟨by rw [hskip], by rw [hskip], compute_source_hash_perm⟩

/-- Witness for `stats_recompute_second_run_noop` on a one-match
database. -/
theorem stats_recompute_second_run_noop_witness :
    (pairDB.matches.filter (fun m => m.league_id = "L1" ∧
      m.season_id = "S1" ∧ m.status = MatchStatus.VALID) ≠ []) ∧
    (recompute_league_stats (fun _ _ _ _ => "lb") (fun _ _ _ _ => "sy")
        (fun _ _ _ _ => "mu")
        (recompute_league_stats (fun _ _ _ _ => "lb") (fun _ _ _ _ => "sy")
          (fun _ _ _ _ => "mu") pairDB 1 "L1" "S1").2 2 "L1" "S1").1 =
      .skipped "Stats unchanged" :=
  ⟨by decide,
   (stats_recompute_second_run_noop (fun _ _ _ _ => "lb") (fun _ _ _ _ => "sy")
     (fun _ _ _ _ => "mu") pairDB 1 2 "L1" "S1" (by decide)).2.1⟩

end Foospulse
